import Mathlib

/-!
Verification of the ModoFit payment-orchestration core (OpenPay gateway
service and the subscription-purchase saga) against its specification.

The JavaScript source is embedded shallowly:
pure helpers become Lean functions, stateful services become explicit
state-passing functions, and the database / gateway side effects of the
saga are modelled by an environment record describing the outcome of each
external operation together with an event trace listing the SQL writes and
gateway calls the code performs, in execution order.
-/

/-! ## JavaScript string primitives used by the service
`strTake`, `strTakeRight`, `strLower`, `strIncludes` model
`String.prototype.substring(0,n)`, `slice(-n)`, `toLowerCase()` and
`includes()` on the character-list view of a string. -/

def strTake (s : String) (n : Nat) : String :=
  ⟨s.data.take n⟩

def strTakeRight (s : String) (n : Nat) : String :=
  ⟨s.data.drop (s.data.length - n)⟩

def strLower (s : String) : String :=
  ⟨s.data.map Char.toLower⟩

def charsHasPrefix : List Char → List Char → Bool
  | [], _ => true
  | _ :: _, [] => false
  | a :: as, b :: bs => a == b && charsHasPrefix as bs

def charsContains : List Char → List Char → Bool
  | [], needle => needle.isEmpty
  | hay@(_ :: t), needle => charsHasPrefix needle hay || charsContains t needle

/-- Model of JavaScript `hay.includes(needle)`. -/
def strIncludes (hay needle : String) : Bool :=
  charsContains hay.data needle.data

/-! ## SecureMasker (`maskSensitiveData` in `openpayService`)
JSON-like values; `JVal.null` models JavaScript `null`, non-object
primitives pass through the masker unchanged exactly as in the source. -/

inductive JVal where
  | str (s : String)
  | num (n : Int)
  | boolean (b : Bool)
  | null
  | arr (items : List JVal)
  | obj (fields : List (String × JVal))

/-- The sensitive-field name list from `maskSensitiveData`. -/
def sensitiveFields : List String :=
  ["privatekey", "publickey", "password", "token", "secret", "api_key",
   "card_number", "cvv", "cvv2", "cvc", "expiration", "pin",
   "account_number", "routing_number", "ssn", "dni"]

/-- Model of the `value.replace` call that deletes every whitespace
character and every dash before the card-number pattern test. -/
def stripSpacesDashes (s : String) : String :=
  ⟨s.data.filter (fun c => !(c.isWhitespace || c == '-'))⟩

/-- Model of `cardPattern.test(clean)` for `cardPattern = /^\d\x7b13,19\x7d$/`,
applied to the already-cleaned string as in the source. -/
def isCardPattern (s : String) : Bool :=
  let cs := s.data
  decide (13 ≤ cs.length) && decide (cs.length ≤ 19) && cs.all Char.isDigit

mutual

/-- Embedding of `maskSensitiveData(data, depth)`: depth cap, pass-through of
non-objects, element-wise recursion on arrays, per-field masking on objects. -/
def maskSensitiveData (depth : Nat) (data : JVal) : JVal :=
  if depth > 10 then .str "[MAX_DEPTH]"
  else
    match data with
    | .arr items => .arr (maskArray depth items)
    | .obj fields => .obj (maskObject depth fields)
    | other => other

def maskArray (depth : Nat) (items : List JVal) : List JVal :=
  match items with
  | [] => []
  | item :: rest => maskSensitiveData (depth + 1) item :: maskArray depth rest

def maskObject (depth : Nat) (fields : List (String × JVal)) :
    List (String × JVal) :=
  match fields with
  | [] => []
  | (key, value) :: rest => (key, maskValue depth key value) :: maskObject depth rest

/-- The per-entry logic of the `for (const [key, value] of Object.entries(data))`
loop in `maskSensitiveData`. -/
def maskValue (depth : Nat) (key : String) (value : JVal) : JVal :=
  let keyLower := strLower key
  if sensitiveFields.any (fun field => strIncludes keyLower field) then
    match value with
    | .str s =>
        if s.length > 8 then
          .str (strTake s 4 ++ "****" ++ strTakeRight s 4)
        else .str "****"
    | _ => .str "****"
  else
    match value with
    | .str s =>
        if isCardPattern (stripSpacesDashes s) then
          let cleanValue := stripSpacesDashes s
          .str (strTake cleanValue 6 ++ "******" ++ strTakeRight cleanValue 4)
        else .str s
    | .obj fields => maskSensitiveData (depth + 1) (.obj fields)
    | .arr items => maskSensitiveData (depth + 1) (.arr items)
    | other => other

end

/-- Top-level call `maskSensitiveData(data)` with the default depth 0. -/
def maskSensitiveDataTop (data : JVal) : JVal :=
  maskSensitiveData 0 data

/-- C3 counterexample: the field name `card_number` is in the
sensitive-field list, so its value is masked by the sensitive-name branch
to first 4 + stars + last 4, namely `4111****1111`; the first six
characters of the masked value are not the first six digits of the card
number, refuting the first-6/last-4 part of the claim. -/
theorem C3_counterexample :
    maskSensitiveDataTop (JVal.obj [("card_number", JVal.str "4111111111111111")])
      = JVal.obj [("card_number", JVal.str "4111****1111")]
    ∧ strTake "4111****1111" 6 ≠ strTake "4111111111111111" 6 := by
  constructor
  · simp +decide [maskSensitiveDataTop, maskSensitiveData, maskObject, maskValue]
  · decide

/-- C3 (amended): `card_number` is a sensitive-named field, so
`\x7bcard_number: "4111111111111111"\x7d` masks to first 4 + `****` +
last 4 (`4111****1111`); the first-6/last-4 masking applies only to
13-to-19-digit values stored under non-sensitive field names. A field
named `password` whose string value is longer than 8 masks to the first 4
characters, then stars, then the last 4 characters, as claimed. -/
theorem C3_masking_amended :
    (maskSensitiveDataTop (JVal.obj [("card_number", JVal.str "4111111111111111")])
      = JVal.obj [("card_number", JVal.str "4111****1111")])
    ∧ (∀ v : String, v.length > 8 →
        maskSensitiveDataTop (JVal.obj [("password", JVal.str v)])
          = JVal.obj [("password",
              JVal.str (strTake v 4 ++ "****" ++ strTakeRight v 4))])
    ∧ (maskSensitiveDataTop (JVal.obj [("reference", JVal.str "4111111111111111")])
      = JVal.obj [("reference", JVal.str "411111******1111")]) := by
  refine ⟨?_, ?_, ?_⟩
  · simp +decide [maskSensitiveDataTop, maskSensitiveData, maskObject, maskValue]
  · intro v hv
    simp +decide [maskSensitiveDataTop, maskSensitiveData, maskObject, maskValue, hv]
  · simp +decide [maskSensitiveDataTop, maskSensitiveData, maskObject, maskValue,
      strTake, strTakeRight, stripSpacesDashes, isCardPattern]

/-- C3 witness: the password clause of the amended theorem applied to a
13-character concrete value. -/
theorem C3_witness :
    ("clavemaestra9" : String).length > 8
    ∧ maskSensitiveDataTop (JVal.obj [("password", JVal.str "clavemaestra9")])
        = JVal.obj [("password",
            JVal.str (strTake "clavemaestra9" 4 ++ "****" ++ strTakeRight "clavemaestra9" 4))] :=
  ⟨by decide, C3_masking_amended.2.1 "clavemaestra9" (by decide)⟩

/-! ## IdempotencyCache fingerprint (`generateIdempotencyKey`)
The source computes
`JSON.stringify(data, Object.keys(data).sort())` and hashes it.
Payloads are modelled as association lists of primitive JSON values in
insertion order; the external `crypto.createHash("sha256")` digest is an
opaque string function passed as a parameter, since the claim only
depends on the serialized text fed to it. -/

inductive JPrim where
  | str (s : String)
  | num (n : Int)
  | boolean (b : Bool)
  | null
deriving Repr, DecidableEq

abbrev Payload := List (String × JPrim)

def serializePrim : JPrim → String
  | .str s => "\"" ++ s ++ "\""
  | .num n => toString n
  | .boolean b => if b then "true" else "false"
  | .null => "null"

/-- One property of the object, looked up by key; `none` when the replacer
key list mentions a key the object does not have. -/
def serializeEntry (p : Payload) (k : String) : Option String :=
  (p.lookup k).map (fun v => "\"" ++ k ++ "\":" ++ serializePrim v)

/-- `JSON.stringify(data, propertyList)`: with an array replacer the
serialized properties follow the order of the property list. -/
def serializeWithKeyList (ks : List String) (p : Payload) : String :=
  "\x7b" ++ String.intercalate "," (ks.filterMap (serializeEntry p)) ++ "\x7d"

/-- Model of `Object.keys(data).sort()` (lexicographic string sort). -/
def jsSortKeys (ks : List String) : List String :=
  ks.mergeSort (fun a b => decide (a ≤ b))

/-- The `sortedData` serialization inside `generateIdempotencyKey`. -/
def sortedStringify (p : Payload) : String :=
  serializeWithKeyList (jsSortKeys (p.map Prod.fst)) p

/-- `generateIdempotencyKey(data)`: hex digest of the canonical
serialization, truncated to 32 characters. -/
def generateIdempotencyKey (hash : String → String) (p : Payload) : String :=
  strTake (hash (sortedStringify p)) 32

theorem lookup_eq_of_perm {β : Type} {l₁ l₂ : List (String × β)} (h : l₁.Perm l₂) :
    (l₁.map Prod.fst).Nodup → ∀ k, l₁.lookup k = l₂.lookup k := by
  induction h with
  | nil => intro _ k; rfl
  | cons x h ih =>
      intro hnd k
      obtain ⟨a, b⟩ := x
      rw [List.map_cons] at hnd
      have hnd2 := (List.nodup_cons.mp hnd).2
      cases hk : (k == a) <;> simp [List.lookup, hk, ih hnd2 k]
  | swap x y l =>
      intro hnd k
      obtain ⟨a, b⟩ := x
      obtain ⟨c, d⟩ := y
      rw [List.map_cons, List.map_cons] at hnd
      have hne : c ≠ a := by
        intro hca
        exact (List.nodup_cons.mp hnd).1 (by simp [hca])
      cases hka : (k == a) <;> cases hkc : (k == c) <;>
        simp [List.lookup, hka, hkc]
      exact absurd (((beq_iff_eq).mp hka).symm.trans ((beq_iff_eq).mp hkc)).symm hne
  | trans h₁ h₂ ih₁ ih₂ =>
      intro hnd k
      exact (ih₁ hnd k).trans (ih₂ (((h₁.map Prod.fst).nodup_iff).mp hnd) k)

theorem jsSortKeys_sorted (ks : List String) :
    List.Sorted (· ≤ ·) (jsSortKeys ks) := by
  have h := @List.sorted_mergeSort String
    (fun a b : String => decide (a ≤ b))
    (fun a b c hab hbc =>
      decide_eq_true (le_trans (of_decide_eq_true hab) (of_decide_eq_true hbc)))
    (fun a b => by rcases le_total a b with h | h <;> simp [h])
    ks
  exact h.imp (fun {a b} hab => of_decide_eq_true hab)

theorem jsSortKeys_eq_of_perm {ks₁ ks₂ : List String} (h : ks₁.Perm ks₂) :
    jsSortKeys ks₁ = jsSortKeys ks₂ := by
  have ha : IsAntisymm String (· ≤ ·) := ⟨fun _ _ => le_antisymm⟩
  exact List.eq_of_perm_of_sorted
    ((List.mergeSort_perm ks₁ _).trans (h.trans (List.mergeSort_perm ks₂ _).symm))
    (jsSortKeys_sorted ks₁) (jsSortKeys_sorted ks₂)

/-- C6: payloads that hold the same key/value pairs in a different
insertion order produce the same idempotency fingerprint, for every
digest function: the serialization is taken over the sorted key list and
looks values up by key, so insertion order cannot influence the result. -/
theorem C6_fingerprint_insertion_order (hash : String → String) (p q : Payload)
    (hperm : p.Perm q) (hnd : (p.map Prod.fst).Nodup) :
    generateIdempotencyKey hash p = generateIdempotencyKey hash q := by
  have h1 : jsSortKeys (p.map Prod.fst) = jsSortKeys (q.map Prod.fst) :=
    jsSortKeys_eq_of_perm (hperm.map Prod.fst)
  have hse : serializeEntry p = serializeEntry q :=
    funext fun k => by unfold serializeEntry; rw [lookup_eq_of_perm hperm hnd k]
  unfold generateIdempotencyKey sortedStringify serializeWithKeyList
  rw [h1, hse]

/-- C6 witness: two concrete two-field payloads differing only in
insertion order get the same key. -/
theorem C6_witness :
    (([("b", JPrim.num 1), ("a", JPrim.str "x")] : Payload).Perm
        [("a", JPrim.str "x"), ("b", JPrim.num 1)])
    ∧ (([("b", JPrim.num 1), ("a", JPrim.str "x")] : Payload).map Prod.fst).Nodup
    ∧ generateIdempotencyKey id [("b", JPrim.num 1), ("a", JPrim.str "x")]
        = generateIdempotencyKey id [("a", JPrim.str "x"), ("b", JPrim.num 1)] :=
  ⟨by decide, by decide,
    C6_fingerprint_insertion_order id _ _ (by decide) (by decide)⟩

/-! ## SECURITY_CONFIG constants used by the service -/

def RATE_LIMIT_WINDOW_MS : Int := 60000
def RATE_LIMIT_MAX_REQUESTS : Nat := 30
def MAX_RETRIES : Nat := 3
def RETRY_DELAY_MS : Nat := 1000
def RETRY_BACKOFF_MULTIPLIER : Nat := 2

/-! ## RateLimiter (`_checkRateLimit`)
The service instance keeps `_requestCount` and `_rateLimitResetTime`;
`Date.now()` is the explicit `now` argument. The returned Bool is true
when the call throws the rate-limit error; note that the counter is
incremented before the limit test, exactly as in the source. -/

structure RateLimitState where
  requestCount : Nat
  rateLimitResetTime : Int
deriving Repr, DecidableEq

def checkRateLimit (now : Int) (st : RateLimitState) : RateLimitState × Bool :=
  let st1 :=
    if now - st.rateLimitResetTime > RATE_LIMIT_WINDOW_MS then
      { requestCount := 0, rateLimitResetTime := now }
    else st
  let st2 := { st1 with requestCount := st1.requestCount + 1 }
  (st2, decide (st2.requestCount > RATE_LIMIT_MAX_REQUESTS))

/-- A sequence of `_checkRateLimit` calls at the given clock instants;
returns the final state and the raised/not-raised outcome of each call. -/
def runRateChecks (st : RateLimitState) : List Int → RateLimitState × List Bool
  | [] => (st, [])
  | t :: ts =>
    let p1 := checkRateLimit t st
    let p2 := runRateChecks p1.1 ts
    (p2.1, p1.2 :: p2.2)

theorem runRateChecks_within_window (ts : List Int) (t0 : Int) (c : Nat)
    (hw : ∀ t ∈ ts, t - t0 ≤ RATE_LIMIT_WINDOW_MS) :
    runRateChecks ⟨c, t0⟩ ts
      = (⟨c + ts.length, t0⟩,
         (List.range ts.length).map
           (fun k => decide (c + k + 1 > RATE_LIMIT_MAX_REQUESTS))) := by
  induction ts generalizing c with
  | nil => simp [runRateChecks]
  | cons t ts ih =>
      have ht : ¬ (t - t0 > RATE_LIMIT_WINDOW_MS) := not_lt.mpr (hw t (by simp))
      have hrest := ih (c + 1) (fun u hu => hw u (by simp [hu]))
      simp only [runRateChecks, checkRateLimit, ht, if_false, hrest]
      simp only [Prod.mk.injEq, RateLimitState.mk.injEq, List.length_cons]
      refine ⟨⟨by omega, trivial⟩, ?_⟩
      rw [List.range_succ_eq_map, List.map_cons, List.map_map]
      refine congrArg₂ List.cons (by simp) ?_
      apply List.map_congr_left
      intro k _
      simp only [Function.comp_apply]
      rw [decide_eq_decide]
      omega

/-- C9: from a fresh window (counter 0, window start t0), checks issued
inside the window raise the rate-limit error exactly on the checks beyond
the 30th, so the 31st check inside one window raises while the first 30
do not; and as soon as a check happens after the window has elapsed the
counter and window start are reset, so that check succeeds again and
leaves count 1 with the window re-anchored at that instant. -/
theorem C9_rate_limiter (t0 : Int) (ts : List Int)
    (hw : ∀ t ∈ ts, t - t0 ≤ RATE_LIMIT_WINDOW_MS) :
    ((runRateChecks ⟨0, t0⟩ ts).2
        = (List.range ts.length).map (fun k => decide (k + 1 > RATE_LIMIT_MAX_REQUESTS)))
    ∧ (∀ st : RateLimitState, ∀ now : Int,
        now - st.rateLimitResetTime > RATE_LIMIT_WINDOW_MS →
        checkRateLimit now st = (⟨1, now⟩, false)) := by
  constructor
  · have h := runRateChecks_within_window ts t0 0 hw
    rw [h]
    simp
  · intro st now hnow
    simp [checkRateLimit, hnow, RATE_LIMIT_MAX_REQUESTS]

/-- C9 witness: 31 checks at the same instant inside one window; the
31st raises and the first 30 do not, and a later check after the window
resets the limiter. -/
theorem C9_witness :
    ((runRateChecks ⟨0, 0⟩ (List.replicate 31 5)).2
        = (List.range 31).map (fun k => decide (k + 1 > RATE_LIMIT_MAX_REQUESTS)))
    ∧ checkRateLimit 70000 ⟨31, 0⟩ = (⟨1, 70000⟩, false) := by
  constructor
  · exact (C9_rate_limiter 0 (List.replicate 31 5) (by decide)).1.trans (by rw [List.length_replicate])
  · exact (C9_rate_limiter 0 [] (by simp)).2 ⟨31, 0⟩ 70000 (by decide)

/-! ## Retry with exponential backoff (`_executeWithRetry`)
An attempt outcome is either a resolved value or a rejection carrying the
optional HTTP status of `error.response`. `outcomes n` is what the
operation does on its n-th invocation. The source `for` loop over
`attempt = 1 .. MAX_RETRIES` is expressed with a fuel argument holding
the number of retries still allowed, i.e. `MAX_RETRIES - attempt`, so
that retrying is permitted exactly while `attempt < MAX_RETRIES`. -/

inductive CallOutcome (α : Type) where
  | ok (value : α)
  | err (status : Option Nat) (msg : String)
deriving Repr, DecidableEq

/-- The non-retryable statuses tested in `_executeWithRetry`:
`status === 400 || 401 || 403 || 422`. -/
def nonRetryableStatus : Option Nat → Bool
  | some s => s == 400 || s == 401 || s == 403 || s == 422
  | none => false

structure RetryRun (α : Type) where
  result : CallOutcome α
  attemptsMade : Nat
  delays : List Nat
deriving Repr, DecidableEq

def executeWithRetryGo {α : Type} (outcomes : Nat → CallOutcome α) :
    Nat → Nat → RetryRun α
  | attempt, 0 =>
    match outcomes attempt with
    | .ok v => ⟨.ok v, attempt, []⟩
    | .err st msg =>
      if nonRetryableStatus st then ⟨.err st msg, attempt, []⟩
      else ⟨.err st msg, attempt, []⟩
  | attempt, fuel + 1 =>
    match outcomes attempt with
    | .ok v => ⟨.ok v, attempt, []⟩
    | .err st msg =>
      if nonRetryableStatus st then ⟨.err st msg, attempt, []⟩
      else
        let delay := RETRY_DELAY_MS * RETRY_BACKOFF_MULTIPLIER ^ (attempt - 1)
        let rest := executeWithRetryGo outcomes (attempt + 1) fuel
        ⟨rest.result, rest.attemptsMade, delay :: rest.delays⟩

/-- `_executeWithRetry(operation)`: attempts start at 1 with
`MAX_RETRIES - 1` retries available. -/
def executeWithRetry {α : Type} (outcomes : Nat → CallOutcome α) : RetryRun α :=
  executeWithRetryGo outcomes 1 (MAX_RETRIES - 1)

theorem executeWithRetryGo_attempts_ge {α : Type} (outcomes : Nat → CallOutcome α) :
    ∀ (fuel attempt : Nat), attempt ≤ (executeWithRetryGo outcomes attempt fuel).attemptsMade := by
  intro fuel
  induction fuel with
  | zero =>
      intro attempt
      rcases h : outcomes attempt with v | ⟨st, msg⟩ <;>
        simp [executeWithRetryGo, h]
  | succ fuel ih =>
      intro attempt
      rcases h : outcomes attempt with v | ⟨st, msg⟩
      · simp [executeWithRetryGo, h]
      · simp only [executeWithRetryGo, h]
        split
        · simp
        · exact Nat.le_trans (Nat.le_succ attempt) (ih (attempt + 1))

theorem executeWithRetryGo_attempts_le {α : Type} (outcomes : Nat → CallOutcome α) :
    ∀ (fuel attempt : Nat),
      (executeWithRetryGo outcomes attempt fuel).attemptsMade ≤ attempt + fuel := by
  intro fuel
  induction fuel with
  | zero =>
      intro attempt
      rcases h : outcomes attempt with v | ⟨st, msg⟩ <;>
        simp [executeWithRetryGo, h]
  | succ fuel ih =>
      intro attempt
      rcases h : outcomes attempt with v | ⟨st, msg⟩
      · simp [executeWithRetryGo, h]
      · simp only [executeWithRetryGo, h]
        split
        · simp
        · exact Nat.le_trans (ih (attempt + 1)) (by omega)

theorem executeWithRetryGo_delays {α : Type} (outcomes : Nat → CallOutcome α) :
    ∀ (fuel attempt : Nat), 1 ≤ attempt →
      (executeWithRetryGo outcomes attempt fuel).delays
        = (List.range ((executeWithRetryGo outcomes attempt fuel).attemptsMade - attempt)).map
            (fun k => RETRY_DELAY_MS * RETRY_BACKOFF_MULTIPLIER ^ (attempt - 1 + k)) := by
  intro fuel
  induction fuel with
  | zero =>
      intro attempt _
      rcases h : outcomes attempt with v | ⟨st, msg⟩ <;>
        simp [executeWithRetryGo, h]
  | succ fuel ih =>
      intro attempt h1
      rcases h : outcomes attempt with v | ⟨st, msg⟩
      · simp [executeWithRetryGo, h]
      · simp only [executeWithRetryGo, h]
        split
        · simp
        · have hge := executeWithRetryGo_attempts_ge outcomes fuel (attempt + 1)
          have hrec := ih (attempt + 1) (by omega)
          show RETRY_DELAY_MS * RETRY_BACKOFF_MULTIPLIER ^ (attempt - 1)
                :: (executeWithRetryGo outcomes (attempt + 1) fuel).delays
              = (List.range
                  ((executeWithRetryGo outcomes (attempt + 1) fuel).attemptsMade - attempt)).map
                  (fun k => RETRY_DELAY_MS * RETRY_BACKOFF_MULTIPLIER ^ (attempt - 1 + k))
          have hsub : (executeWithRetryGo outcomes (attempt + 1) fuel).attemptsMade - attempt
              = ((executeWithRetryGo outcomes (attempt + 1) fuel).attemptsMade - (attempt + 1)) + 1 := by
            omega
          rw [hrec, hsub, List.range_succ_eq_map, List.map_cons, List.map_map]
          refine congrArg₂ List.cons (by simp) ?_
          apply List.map_congr_left
          intro k _
          simp only [Function.comp_apply]
          have hexp : attempt + 1 - 1 + k = attempt - 1 + (k + 1) := by omega
          rw [hexp]

/-- C4: the retry wrapper makes at most `MAX_RETRIES = 3` attempts; a
400/401/403/422 failure surfaces at once with no further attempt and no
delay; a 500 that precedes a non-retryable failure is retried once after
1000 ms and the non-retryable error then surfaces; two 500 failures
followed by a success return the success after delays of 1000 ms and
2000 ms; three retryable failures surface the last error; and every
delay equals `RETRY_DELAY_MS * RETRY_BACKOFF_MULTIPLIER ^ (attempt - 1)`. -/
theorem C4_retry_policy {α : Type} (outcomes : Nat → CallOutcome α) :
    ((executeWithRetry outcomes).attemptsMade ≤ MAX_RETRIES)
    ∧ (∀ s msg, nonRetryableStatus (some s) = true → outcomes 1 = .err (some s) msg →
        executeWithRetry outcomes = ⟨.err (some s) msg, 1, []⟩)
    ∧ (∀ m1 s msg, outcomes 1 = .err (some 500) m1 → nonRetryableStatus (some s) = true →
        outcomes 2 = .err (some s) msg →
        executeWithRetry outcomes = ⟨.err (some s) msg, 2, [1000]⟩)
    ∧ (∀ m1 m2 (v : α), outcomes 1 = .err (some 500) m1 → outcomes 2 = .err (some 500) m2 →
        outcomes 3 = .ok v →
        executeWithRetry outcomes = ⟨.ok v, 3, [1000, 2000]⟩)
    ∧ (∀ s1 m1 s2 m2 s3 m3,
        outcomes 1 = .err s1 m1 → outcomes 2 = .err s2 m2 → outcomes 3 = .err s3 m3 →
        nonRetryableStatus s1 = false → nonRetryableStatus s2 = false →
        executeWithRetry outcomes = ⟨.err s3 m3, 3, [1000, 2000]⟩)
    ∧ ((executeWithRetry outcomes).delays
        = (List.range ((executeWithRetry outcomes).attemptsMade - 1)).map
            (fun k => RETRY_DELAY_MS * RETRY_BACKOFF_MULTIPLIER ^ k)) := by
  refine ⟨?_, ?_, ?_, ?_, ?_, ?_⟩
  · exact Nat.le_trans (executeWithRetryGo_attempts_le outcomes (MAX_RETRIES - 1) 1) (by decide)
  · intro s msg hnr h1
    simp [executeWithRetry, MAX_RETRIES, executeWithRetryGo, h1, hnr]
  · intro m1 s msg h1 hnr h2
    simp +decide [executeWithRetry, MAX_RETRIES, executeWithRetryGo, h1, h2, hnr,
      RETRY_DELAY_MS, RETRY_BACKOFF_MULTIPLIER]
  · intro m1 m2 v h1 h2 h3
    simp [executeWithRetry, MAX_RETRIES, executeWithRetryGo, h1, h2, h3,
      nonRetryableStatus, RETRY_DELAY_MS, RETRY_BACKOFF_MULTIPLIER]
  · intro s1 m1 s2 m2 s3 m3 h1 h2 h3 hr1 hr2
    simp [executeWithRetry, MAX_RETRIES, executeWithRetryGo, h1, h2, h3, hr1, hr2,
      RETRY_DELAY_MS, RETRY_BACKOFF_MULTIPLIER]
  · have h := executeWithRetryGo_delays outcomes (MAX_RETRIES - 1) 1 (by omega)
    simpa [executeWithRetry] using h

/-- C4 witness: an operation failing twice with 500 and succeeding on the
third invocation returns the success after delays of 1 s and 2 s. -/
theorem C4_witness :
    ((fun n => if n = 1 then CallOutcome.err (some 500) "caida1"
      else if n = 2 then CallOutcome.err (some 500) "caida2"
      else CallOutcome.ok 7) 1 = CallOutcome.err (some 500) "caida1")
    ∧ ((fun n => if n = 1 then CallOutcome.err (some 500) "caida1"
      else if n = 2 then CallOutcome.err (some 500) "caida2"
      else CallOutcome.ok 7) 2 = CallOutcome.err (some 500) "caida2")
    ∧ ((fun n => if n = 1 then CallOutcome.err (some 500) "caida1"
      else if n = 2 then CallOutcome.err (some 500) "caida2"
      else CallOutcome.ok (7 : Nat)) 3 = CallOutcome.ok 7)
    ∧ executeWithRetry (fun n => if n = 1 then CallOutcome.err (some 500) "caida1"
      else if n = 2 then CallOutcome.err (some 500) "caida2"
      else CallOutcome.ok (7 : Nat)) = ⟨CallOutcome.ok 7, 3, [1000, 2000]⟩ :=
  ⟨by decide, by decide, by decide,
    (C4_retry_policy _).2.2.2.1 "caida1" "caida2" 7 (by decide) (by decide) (by decide)⟩

/-! ## AuditedCallExecutor (`_executeWithLogging`)
`callResult` abstracts the outcome of `_executeWithRetry(operation)`.
`LoggingEnv` describes the infrastructure outcomes: whether the pre-call
insert into `PasarelaApiLog` succeeds (and the id it returns), and
whether the post-call update and the audit insert throw internally; both
helpers swallow their own exceptions, which the embedding reflects by
returning only an event that records the attempt and its outcome. -/

structure LoggingEnv where
  logInsertOk : Bool
  logId : Nat
  updateThrows : Bool
  auditThrows : Bool
deriving Repr, DecidableEq

inductive LogEv where
  | apiLogInicio (ok : Bool)
  | apiLogUpdate (idapilog : Nat) (esexitoso : Bool) (ok : Bool)
  | auditInsert (accion : String) (ok : Bool)
deriving Repr, DecidableEq

/-- `_registrarApiLogInicio`: inserts the pending log row and returns its
id, or null when the insert fails (the catch returns null). -/
def registrarApiLogInicio (env : LoggingEnv) : Option Nat × List LogEv :=
  if env.logInsertOk then (some env.logId, [.apiLogInicio true])
  else (none, [.apiLogInicio false])

/-- `_actualizarApiLogRespuesta`: returns immediately when the id is
null; otherwise attempts the update and swallows any failure. -/
def actualizarApiLogRespuesta (env : LoggingEnv) (idapilog : Option Nat)
    (esexitoso : Bool) : List LogEv :=
  match idapilog with
  | none => []
  | some id => [.apiLogUpdate id esexitoso (!env.updateThrows)]

/-- `_registrarAuditoria`: attempts the audit insert and swallows any
failure. -/
def registrarAuditoria (env : LoggingEnv) (accion : String) : List LogEv :=
  [.auditInsert accion (!env.auditThrows)]

structure ApiError where
  status : Option Nat
  msg : String
deriving Repr, DecidableEq

/-- `_executeWithLogging`: pre-call log insert, the call, post-call log
update, audit entry; the outcome (resolved value or thrown error) is
tagged with the pre-call log id exactly as `_idapilog` is attached in
the source, and a thrown error is re-raised only after the update and
the audit write. -/
def executeWithLogging {α : Type} (env : LoggingEnv) (callResult : CallOutcome α) :
    Except (ApiError × Option Nat) (α × Option Nat) × List LogEv :=
  let pre := registrarApiLogInicio env
  let idapilog := pre.1
  match callResult with
  | .ok resp =>
      (.ok (resp, idapilog),
        pre.2 ++ actualizarApiLogRespuesta env idapilog true
             ++ registrarAuditoria env "API_CALL_SUCCESS")
  | .err st msg =>
      (.error (⟨st, msg⟩, idapilog),
        pre.2 ++ actualizarApiLogRespuesta env idapilog false
             ++ registrarAuditoria env "API_CALL_ERROR")

/-- C7: the executor tags the outcome with the pre-call log id (on the
response on success, on the re-raised error on failure); failures of the
log update or of the audit write never change the returned outcome; and
when the call fails, the trace ends with the log update (when a log row
exists) followed by the `API_CALL_ERROR` audit entry, after which the
original error is surfaced unchanged. -/
theorem C7_logging_executor {α : Type} (env : LoggingEnv) (callResult : CallOutcome α) :
    (∀ resp : α, callResult = .ok resp →
      (executeWithLogging env callResult).1
        = .ok (resp, if env.logInsertOk then some env.logId else none))
    ∧ (∀ st msg, callResult = .err st msg →
      (executeWithLogging env callResult).1
        = .error (⟨st, msg⟩, if env.logInsertOk then some env.logId else none))
    ∧ (∀ u a : Bool,
      (executeWithLogging ⟨env.logInsertOk, env.logId, u, a⟩ callResult).1
        = (executeWithLogging env callResult).1)
    ∧ (∀ st msg, callResult = .err st msg →
      (executeWithLogging env callResult).2
        = (if env.logInsertOk then
             [LogEv.apiLogInicio true,
              LogEv.apiLogUpdate env.logId false (!env.updateThrows)]
           else [LogEv.apiLogInicio false])
          ++ [LogEv.auditInsert "API_CALL_ERROR" (!env.auditThrows)]) := by
  refine ⟨?_, ?_, ?_, ?_⟩
  · intro resp h
    cases henv : env.logInsertOk <;>
      simp [executeWithLogging, registrarApiLogInicio, h, henv]
  · intro st msg h
    cases henv : env.logInsertOk <;>
      simp [executeWithLogging, registrarApiLogInicio, h, henv]
  · intro u a
    cases callResult <;>
      cases henv : env.logInsertOk <;>
        simp [executeWithLogging, registrarApiLogInicio, henv]
  · intro st msg h
    cases henv : env.logInsertOk <;>
      simp [executeWithLogging, registrarApiLogInicio,
        actualizarApiLogRespuesta, registrarAuditoria, h, henv]

/-- C7 witness: a 422 failure under an environment where both the log
update and the audit write throw internally: the original error is still
the outcome, tagged with log id 42, and the trace shows update before
audit. -/
theorem C7_witness :
    ((CallOutcome.err (some 422) "tarjeta rechazada" : CallOutcome Nat)
        = CallOutcome.err (some 422) "tarjeta rechazada")
    ∧ (executeWithLogging ⟨true, 42, true, true⟩
        (CallOutcome.err (some 422) "tarjeta rechazada" : CallOutcome Nat)).1
        = .error (⟨some 422, "tarjeta rechazada"⟩, some 42)
    ∧ (executeWithLogging ⟨true, 42, true, true⟩
        (CallOutcome.err (some 422) "tarjeta rechazada" : CallOutcome Nat)).2
        = [LogEv.apiLogInicio true, LogEv.apiLogUpdate 42 false false,
           LogEv.auditInsert "API_CALL_ERROR" false] :=
  ⟨rfl,
   by
     have h := (C7_logging_executor ⟨true, 42, true, true⟩
       (CallOutcome.err (some 422) "tarjeta rechazada" : CallOutcome Nat)).2.1
       (some 422) "tarjeta rechazada" rfl
     simpa using h,
   by
     have h := (C7_logging_executor ⟨true, 42, true, true⟩
       (CallOutcome.err (some 422) "tarjeta rechazada" : CallOutcome Nat)).2.2.2
       (some 422) "tarjeta rechazada" rfl
     simpa using h⟩

/-! ## VirtualCashRegister ledger (`actualizarCajaVirtual`)
The unified `Caja` row and its `CajaDetallePasarela` extension row.
Amounts are integers here; the source applies the same additions to SQL
numeric columns. -/

structure CajaRow where
  montfincaja : Int
deriving Repr, DecidableEq

structure CajaDetallePasarela where
  canttransacciones : Int
  cantaprobadas : Int
  montbruto : Int
  montcomision : Int
  montiva : Int
  montneto : Int
deriving Repr, DecidableEq

/-- `actualizarCajaVirtual(idcaja, monto, comision, impuesto)`: the two
UPDATE statements on `Caja` and `CajaDetallePasarela`. -/
def actualizarCajaVirtual (caja : CajaRow) (det : CajaDetallePasarela)
    (monto comision impuesto : Int) : CajaRow × CajaDetallePasarela :=
  let neto := monto - comision - impuesto
  ({ montfincaja := caja.montfincaja + monto },
   { canttransacciones := det.canttransacciones + 1
     cantaprobadas := det.cantaprobadas + 1
     montbruto := det.montbruto + monto
     montcomision := det.montcomision + comision
     montiva := det.montiva + impuesto
     montneto := det.montneto + neto })

/-- The detail row inserted by `obtenerOCrearCajaVirtual` for a fresh
register: zero transactions and zero totals. -/
def freshCajaDetalle : CajaDetallePasarela :=
  ⟨0, 0, 0, 0, 0, 0⟩

def freshCaja : CajaRow := ⟨0⟩

/-- C5: each update adds 1 to the transaction count, adds the gross,
fee and tax amounts to their running totals and adds gross − fee − tax
to the net total; applying (100, 5, 2) then (200, 10, 4) to a fresh
register yields count 2, gross 300, fee 15, tax 6, net 279. -/
theorem C5_cash_register :
    (∀ (caja : CajaRow) (det : CajaDetallePasarela) (monto comision impuesto : Int),
      (actualizarCajaVirtual caja det monto comision impuesto).2.canttransacciones
          = det.canttransacciones + 1
      ∧ (actualizarCajaVirtual caja det monto comision impuesto).2.montbruto
          = det.montbruto + monto
      ∧ (actualizarCajaVirtual caja det monto comision impuesto).2.montcomision
          = det.montcomision + comision
      ∧ (actualizarCajaVirtual caja det monto comision impuesto).2.montiva
          = det.montiva + impuesto
      ∧ (actualizarCajaVirtual caja det monto comision impuesto).2.montneto
          = det.montneto + (monto - comision - impuesto)
      ∧ (actualizarCajaVirtual caja det monto comision impuesto).1.montfincaja
          = caja.montfincaja + monto)
    ∧ ((actualizarCajaVirtual
          (actualizarCajaVirtual freshCaja freshCajaDetalle 100 5 2).1
          (actualizarCajaVirtual freshCaja freshCajaDetalle 100 5 2).2
          200 10 4).2
        = ⟨2, 2, 300, 15, 6, 279⟩) := by
  constructor
  · intro caja det monto comision impuesto
    refine ⟨rfl, rfl, rfl, rfl, rfl, rfl⟩
  · decide

/-! ## OpenPayService public operations (C10)
Each operation is a `try` body that can throw a `JsError` (validation
failure, rate limit, initialization failure, or a gateway rejection
surfaced by the retry layer) and a `catch` that converts any thrown error
into a plain result object. JavaScript falsiness of missing
`description` / `error_code` strings is modelled by the empty string.
The optional customer fields that are copied into the request but never
branch the control flow are elided. -/

def jsTrim (cs : List Char) : List Char :=
  ((cs.dropWhile Char.isWhitespace).reverse.dropWhile Char.isWhitespace).reverse

def forbiddenSanitizeChars : List Char :=
  ['<', '>', '"', '\'', '%', ';', '(', ')', '&', '+']

/-- `sanitizeString(str, maxLength)`: trim, truncate to `maxLength`,
then delete the injection-prone characters. -/
def sanitizeString (s : String) (maxLength : Nat) : String :=
  ⟨((jsTrim s.data).take maxLength).filter (fun c => !forbiddenSanitizeChars.contains c)⟩

/-- A thrown JavaScript error as the service observes it:
`error.message`, `error.response?.status`,
`error.response?.data?.description` and `error.response?.data?.error_code`
(empty string models a missing/falsy field), plus the `_idapilog` tag
attached by `_executeWithLogging`. -/
structure JsError where
  msg : String
  status : Option Nat
  description : String
  errorCode : String
  idapilog : Option Nat
deriving Repr, DecidableEq

/-- The resolved value of a public operation: either a success object
with the external resource id and the `idapilog` trace id, or a failure
object with a human-readable `error` and an error `code`. -/
inductive OpResult where
  | ok (externalId : String) (idapilog : Option Nat)
  | fail (error : String) (code : String) (idapilog : Option Nat)
deriving Repr, DecidableEq

/-- JavaScript `a || b` on strings. -/
def jsOr (a b : String) : String := if a = "" then b else a

/-- `error.response?.data?.error_code || "UNKNOWN_ERROR"`. -/
def errCode (e : JsError) : String := jsOr e.errorCode "UNKNOWN_ERROR"

/-- The `userMessage` fallback chain in the `crearCliente` catch. -/
def crearClienteUserMessage (e : JsError) : String :=
  if e.description ≠ "" then e.description
  else if e.msg ≠ "" ∧ !(strIncludes e.msg "internal") then e.msg
  else "Error al crear cliente en la pasarela de pagos"

structure GatewayData where
  id : String
deriving Repr, DecidableEq

structure ClienteInput where
  name : String
  email : String
deriving Repr, DecidableEq

structure CrearClienteEnv where
  rateLimited : Bool
  initOk : Bool
  cached : Option (String × Option Nat)
  gateway : Except JsError GatewayData
  gatewayLogId : Option Nat


def rateLimitError : JsError :=
  ⟨"Rate limit excedido. Intente nuevamente en un momento.", none, "", "", none⟩

def initError : JsError :=
  ⟨"Error al inicializar servicio de pagos", none, "", "", none⟩

def validationError (m : String) : JsError := ⟨m, none, "", "", none⟩

/-- The `try` body of `crearCliente`. -/
def crearClienteCore (env : CrearClienteEnv) (input : ClienteInput) :
    Except JsError (String × Option Nat) :=
  if env.rateLimited then .error rateLimitError
  else if !env.initOk then .error initError
  else
    let name := sanitizeString input.name 100
    let email := strLower ⟨jsTrim input.email.data⟩
    if name = "" ∨ name.length < 2 then
      .error (validationError "El nombre del cliente debe tener al menos 2 caracteres")
    else if email = "" ∨ !(strIncludes email "@") then
      .error (validationError "Se requiere un email válido")
    else
      match env.cached with
      | some r => .ok r
      | none =>
        match env.gateway with
        | .error e => .error e
        | .ok d =>
          if d.id ≠ "" then .ok (d.id, env.gatewayLogId)
          else .error (validationError "Respuesta inválida del servidor de pagos")

/-- `crearCliente`: the catch turns a thrown error into
`\x7bsuccess: false, error: userMessage, code\x7d`. -/
def crearCliente (env : CrearClienteEnv) (input : ClienteInput) : OpResult :=
  match crearClienteCore env input with
  | .ok (idv, lg) => .ok idv lg
  | .error e => .fail (crearClienteUserMessage e) (errCode e) none

structure AsociarTarjetaEnv where
  rateLimited : Bool
  initOk : Bool
  gateway : Except JsError GatewayData
  gatewayLogId : Option Nat


/-- The `try` body of `asociarTarjeta`. -/
def asociarTarjetaCore (env : AsociarTarjetaEnv)
    (customerId tokenId deviceSessionId : String) :
    Except JsError (String × Option Nat) :=
  if env.rateLimited then .error rateLimitError
  else if !env.initOk then .error initError
  else
    let c := sanitizeString customerId 100
    let t := sanitizeString tokenId 100
    let d := sanitizeString deviceSessionId 100
    if c = "" ∨ t = "" ∨ d = "" then
      .error (validationError "Datos incompletos para asociar tarjeta")
    else
      match env.gateway with
      | .error e => .error e
      | .ok g =>
        if g.id ≠ "" then .ok (g.id, env.gatewayLogId)
        else .error (validationError "Respuesta inválida al asociar tarjeta")

/-- `asociarTarjeta`: its catch also forwards `error._idapilog`. -/
def asociarTarjeta (env : AsociarTarjetaEnv)
    (customerId tokenId deviceSessionId : String) : OpResult :=
  match asociarTarjetaCore env customerId tokenId deviceSessionId with
  | .ok (idv, lg) => .ok idv lg
  | .error e =>
      .fail (jsOr e.description "Error al asociar tarjeta") (errCode e) e.idapilog

structure CrearSuscripcionEnv where
  rateLimited : Bool
  initOk : Bool
  cached : Option (String × Option Nat)
  gateway : Except JsError GatewayData
  gatewayLogId : Option Nat


/-- The `try` body of `crearSuscripcion`. -/
def crearSuscripcionCore (env : CrearSuscripcionEnv)
    (customerId planId cardId : String) :
    Except JsError (String × Option Nat) :=
  if env.rateLimited then .error rateLimitError
  else if !env.initOk then .error initError
  else
    let c := sanitizeString customerId 100
    let p := sanitizeString planId 100
    let _card := sanitizeString cardId 100
    if c = "" ∨ p = "" then
      .error (validationError "Datos incompletos para crear suscripción")
    else
      match env.cached with
      | some r => .ok r
      | none =>
        match env.gateway with
        | .error e => .error e
        | .ok g =>
          if g.id ≠ "" then .ok (g.id, env.gatewayLogId)
          else .error (validationError "Respuesta inválida al crear suscripción")

def crearSuscripcion (env : CrearSuscripcionEnv)
    (customerId planId cardId : String) : OpResult :=
  match crearSuscripcionCore env customerId planId cardId with
  | .ok (idv, lg) => .ok idv lg
  | .error e =>
      .fail (jsOr e.description "Error al crear suscripción") (errCode e) e.idapilog

def MIN_AMOUNT : ℚ := 1
def MAX_AMOUNT : ℚ := 50000

/-- `validateAmount(amount)`: `none` models a NaN `parseFloat` result;
the returned amount is rounded to two decimals as
`Math.round(x * 100) / 100`. -/
def validateAmount (amount : Option ℚ) : Except JsError ℚ :=
  match amount with
  | none => .error (validationError "El monto debe ser un número válido")
  | some x =>
      if x < MIN_AMOUNT then .error (validationError "El monto mínimo es 1")
      else if x > MAX_AMOUNT then .error (validationError "El monto máximo es 50000")
      else .ok ((round (x * 100) : ℤ) / (100 : ℚ))

structure CargoInput where
  amount : Option ℚ
  use3dSecure : Bool
  redirectUrl : String
deriving DecidableEq

structure CrearCargoEnv where
  rateLimited : Bool
  initOk : Bool
  gateway : Except JsError GatewayData


/-- The `try` body of `crearCargo`. -/
def crearCargoCore (env : CrearCargoEnv) (input : CargoInput) :
    Except JsError (String × Option Nat) :=
  if env.rateLimited then .error rateLimitError
  else if !env.initOk then .error initError
  else
    match validateAmount input.amount with
    | .error e => .error e
    | .ok _amount =>
      if input.use3dSecure ∧ input.redirectUrl = "" then
        .error (validationError
          "redirect_url es requerida cuando use_3d_secure está activo")
      else
        match env.gateway with
        | .error e => .error e
        | .ok g =>
          if g.id ≠ "" then .ok (g.id, none)
          else .error (validationError "Respuesta inválida al crear cargo")

def crearCargo (env : CrearCargoEnv) (input : CargoInput) : OpResult :=
  match crearCargoCore env input with
  | .ok (idv, lg) => .ok idv lg
  | .error e =>
      .fail (jsOr e.description "Error al procesar el pago") (errCode e) none

theorem errCode_ne_empty (e : JsError) : errCode e ≠ "" := by
  unfold errCode jsOr
  split
  · decide
  · simp_all

theorem jsOr_ne_empty (a b : String) (hb : b ≠ "") : jsOr a b ≠ "" := by
  unfold jsOr
  split
  · exact hb
  · simp_all

theorem crearClienteUserMessage_ne_empty (e : JsError) :
    crearClienteUserMessage e ≠ "" := by
  unfold crearClienteUserMessage
  split
  · simp_all
  · split
    · simp_all
    · decide

/-- C10: the public gateway operations always resolve to a structured
result (the embedding is a total function into `OpResult`, mirroring the
top-level try/catch that converts every thrown error into a plain
object), and whenever the result is a failure its human-readable error
message and its error code are non-empty strings, for every environment
and every input: validation failures, rate-limit errors, initialization
failures and gateway rejections included. -/
theorem C10_structured_failure_results :
    (∀ (env : CrearClienteEnv) (input : ClienteInput) (e c : String) (l : Option Nat),
        crearCliente env input = .fail e c l → e ≠ "" ∧ c ≠ "")
    ∧ (∀ (env : AsociarTarjetaEnv) (customerId tokenId deviceSessionId : String)
        (e c : String) (l : Option Nat),
        asociarTarjeta env customerId tokenId deviceSessionId = .fail e c l →
          e ≠ "" ∧ c ≠ "")
    ∧ (∀ (env : CrearSuscripcionEnv) (customerId planId cardId : String)
        (e c : String) (l : Option Nat),
        crearSuscripcion env customerId planId cardId = .fail e c l →
          e ≠ "" ∧ c ≠ "")
    ∧ (∀ (env : CrearCargoEnv) (input : CargoInput) (e c : String) (l : Option Nat),
        crearCargo env input = .fail e c l → e ≠ "" ∧ c ≠ "") := by
  refine ⟨?_, ?_, ?_, ?_⟩
  · intro env input e c l h
    unfold crearCliente at h
    rcases hcore : crearClienteCore env input with err | d
    · rw [hcore] at h
      simp only [OpResult.fail.injEq] at h
      obtain ⟨he, hc, -⟩ := h
      exact ⟨he ▸ crearClienteUserMessage_ne_empty err, hc ▸ errCode_ne_empty err⟩
    · rw [hcore] at h
      obtain ⟨idv, lg⟩ := d
      simp at h
  · intro env customerId tokenId deviceSessionId e c l h
    unfold asociarTarjeta at h
    rcases hcore : asociarTarjetaCore env customerId tokenId deviceSessionId with err | d
    · rw [hcore] at h
      simp only [OpResult.fail.injEq] at h
      obtain ⟨he, hc, -⟩ := h
      exact ⟨he ▸ jsOr_ne_empty _ _ (by decide), hc ▸ errCode_ne_empty err⟩
    · rw [hcore] at h
      obtain ⟨idv, lg⟩ := d
      simp at h
  · intro env customerId planId cardId e c l h
    unfold crearSuscripcion at h
    rcases hcore : crearSuscripcionCore env customerId planId cardId with err | d
    · rw [hcore] at h
      simp only [OpResult.fail.injEq] at h
      obtain ⟨he, hc, -⟩ := h
      exact ⟨he ▸ jsOr_ne_empty _ _ (by decide), hc ▸ errCode_ne_empty err⟩
    · rw [hcore] at h
      obtain ⟨idv, lg⟩ := d
      simp at h
  · intro env input e c l h
    unfold crearCargo at h
    rcases hcore : crearCargoCore env input with err | d
    · rw [hcore] at h
      simp only [OpResult.fail.injEq] at h
      obtain ⟨he, hc, -⟩ := h
      exact ⟨he ▸ jsOr_ne_empty _ _ (by decide), hc ▸ errCode_ne_empty err⟩
    · rw [hcore] at h
      obtain ⟨idv, lg⟩ := d
      simp at h

/-- C10 witness: a rate-limited `crearCliente` call resolves (does not
throw) to a failure object whose message and code are non-empty. -/
theorem C10_witness :
    crearCliente ⟨true, true, none, Except.ok ⟨""⟩, none⟩ ⟨"Ana", "ana@mail.pe"⟩
        = OpResult.fail "Rate limit excedido. Intente nuevamente en un momento."
            "UNKNOWN_ERROR" none
    ∧ ("Rate limit excedido. Intente nuevamente en un momento." ≠ ""
        ∧ ("UNKNOWN_ERROR" : String) ≠ "") :=
  ⟨by decide,
    C10_structured_failure_results.1 ⟨true, true, none, Except.ok ⟨""⟩, none⟩
      ⟨"Ana", "ana@mail.pe"⟩
      "Rate limit excedido. Intente nuevamente en un momento." "UNKNOWN_ERROR" none
      (by decide)⟩

/-! ## The purchase saga (`procesarPagoCompleto` in `controllersql.js`)
`SagaEnv` fixes the outcome of every external operation of one run:
whether each database insert and each gateway call succeeds, and the
error strings / identifiers those operations produce. The saga returns
its structured outcome together with the trace of SQL writes and gateway
calls, in execution order. A trace event records that the corresponding
statement was executed. Helper functions that only read
(`buscarUsuarioPorDocumento`, `buscarClientePasarela`,
`obtenerOCrearCajaVirtual`) contribute no events; the branches they
steer are decided by `usuarioExiste` / `clientePasarelaExiste`. -/

inductive Ev where
  | insertSesion (idsesionpas : Nat)
  | histAppend (accion : String) (detalle : String)
  | updateSesionUsu
  | insertUsuario
  | openpayCall (operacion : String) (ok : Bool)
  | insertPasarelaCliente
  | insertPasarelaTarjeta
  | insertPasarelaSuscripcion
  | insertPasarelaTransaccion
  | cajaVirtualUpdate
  | cerrarSesionEv (estado : String)
  | insertVenta
  | insertVentaDetalle
  | insertMembresia
  | updateTransVenta
deriving Repr, DecidableEq

inductive SagaOutcome where
  | ok (idsesionpas : Nat)
  | fail (error : String) (idsesionpas : Option Nat)
deriving Repr, DecidableEq

structure SagaEnv where
  sesionDbOk : Bool
  sesionDbError : String
  idsesionpas : Nat
  usuarioExiste : Bool
  clientePasarelaExiste : Bool
  crearUsuarioOk : Bool
  crearClienteOk : Bool
  crearClienteError : String
  registrarClienteOk : Bool
  registrarClienteError : String
  asociarTarjetaOk : Bool
  asociarTarjetaError : String
  tarjetaUltimos4 : String
  tarjetaMarca : String
  guardarTarjetaOk : Bool
  guardarTarjetaError : String
  crearSuscripcionOk : Bool
  crearSuscripcionError : String
  idsuscext : String
  suscripcionStatus : String
  guardarSuscripcionOk : Bool
  guardarSuscripcionError : String
  registrarTransaccionOk : Bool
  crearVentaOk : Bool
  crearVentaDetalleOk : Bool
  crearMembresiaOk : Bool

/-- `procesarCliente` (pasos 3-7): returns the success flag and error of
the client phase plus its events. An existing `PasarelaCliente` row
short-circuits the gateway call; a missing user is created first; the
gateway call and the local mirror insert can each fail, with the
controller applying its `||` defaults to the error message. -/
def sagaProcesarCliente (env : SagaEnv) : (Bool × String) × List Ev :=
  if env.usuarioExiste then
    if env.clientePasarelaExiste then ((true, ""), [])
    else
      if env.crearClienteOk then
        if env.registrarClienteOk then
          ((true, ""), [.openpayCall "CREATE_CUSTOMER" true, .insertPasarelaCliente])
        else
          ((false, jsOr env.registrarClienteError "Error al registrar en PasarelaCliente"),
            [.openpayCall "CREATE_CUSTOMER" true])
      else
        ((false, jsOr env.crearClienteError "Error al crear cliente en OpenPay"),
          [.openpayCall "CREATE_CUSTOMER" false])
  else
    if env.crearUsuarioOk then
      if env.crearClienteOk then
        if env.registrarClienteOk then
          ((true, ""),
            [.insertUsuario, .openpayCall "CREATE_CUSTOMER" true, .insertPasarelaCliente])
        else
          ((false, jsOr env.registrarClienteError "Error al registrar en PasarelaCliente"),
            [.insertUsuario, .openpayCall "CREATE_CUSTOMER" true])
      else
        ((false, jsOr env.crearClienteError "Error al crear cliente en OpenPay"),
          [.insertUsuario, .openpayCall "CREATE_CUSTOMER" false])
    else ((false, "No se pudo crear el usuario en la base de datos"), [])

/-- `registrarTransaccion` (pasos 13-14): inserts the transaction row
and, when the external subscription state signals a settled charge,
applies the amount to the virtual cash register; any internal failure is
caught and reported as a plain unsuccessful result. -/
def sagaRegistrarTransaccion (env : SagaEnv) : Bool × List Ev :=
  if env.registrarTransaccionOk then
    (true,
      [.insertPasarelaTransaccion]
        ++ (if env.suscripcionStatus = "completed" ∨ env.suscripcionStatus = "active"
            then [.cajaVirtualUpdate] else []))
  else (false, [])

/-- The catch block of `procesarPagoCompleto` once a session exists:
append the `PAGO_FALLIDO` history entry carrying the error detail, close
the session as Failed, and return the structured failure with the
session id. -/
def sagaAbort (idsesionpas : Nat) (errMsg : String) (evs : List Ev) :
    SagaOutcome × List Ev :=
  (.fail errMsg (some idsesionpas),
   evs ++ [.histAppend "PAGO_FALLIDO" errMsg, .cerrarSesionEv "F"])

/-- Fase 5 (pasos 17-20): the sale, its detail line and the membership;
`crearVentaVirtual` failing merely logs a warning and skips pasos 18-20,
while the results of pasos 18 and 19 are not checked and paso 20 always
runs once a sale exists. -/
def sagaFase5 (env : SagaEnv) : List Ev :=
  if env.crearVentaOk then
    [.insertVenta]
      ++ (if env.crearVentaDetalleOk then [.insertVentaDetalle] else [])
      ++ (if env.crearMembresiaOk then [.insertMembresia] else [])
      ++ [.updateTransVenta]
  else []

/-- Pasos 13-20: register the transaction (its result is never checked),
append the `PAGO_EXITOSO` history entry, close the session as Completed,
then run fase 5; the saga then returns success. -/
def sagaDesdeTransaccion (env : SagaEnv) (sid : Nat) (evs : List Ev) :
    SagaOutcome × List Ev :=
  let trans := sagaRegistrarTransaccion env
  let ev7 := evs ++ trans.2
    ++ [.histAppend "PAGO_EXITOSO" ("Suscripción creada: " ++ env.idsuscext),
        .cerrarSesionEv "C"]
  (.ok sid, ev7 ++ sagaFase5 env)

/-- Pasos 8-12: card association, local card row, `TOKEN_CREADO` history,
subscription creation and local subscription row; each checked failure
throws into the catch, any success continues with pasos 13-20. -/
def sagaDesdeTarjeta (env : SagaEnv) (sid : Nat) (evs : List Ev) :
    SagaOutcome × List Ev :=
  if !env.asociarTarjetaOk then
    sagaAbort sid ("Paso 8 falló: " ++ env.asociarTarjetaError)
      (evs ++ [.openpayCall "ASSOCIATE_CARD" false])
  else
    let ev3 := evs ++ [.openpayCall "ASSOCIATE_CARD" true]
    if !env.guardarTarjetaOk then
      sagaAbort sid ("Paso 9 falló: " ++ env.guardarTarjetaError) ev3
    else
      let ev4 := ev3 ++ [.insertPasarelaTarjeta,
        .histAppend "TOKEN_CREADO"
          ("Tarjeta asociada: ****" ++ env.tarjetaUltimos4 ++ " " ++ env.tarjetaMarca)]
      if !env.crearSuscripcionOk then
        sagaAbort sid ("Paso 11 falló: " ++ env.crearSuscripcionError)
          (ev4 ++ [.openpayCall "CREATE_SUBSCRIPTION" false])
      else
        let ev5 := ev4 ++ [.openpayCall "CREATE_SUBSCRIPTION" true]
        if !env.guardarSuscripcionOk then
          sagaAbort sid ("Paso 12 falló: " ++ env.guardarSuscripcionError) ev5
        else
          sagaDesdeTransaccion env sid (ev5 ++ [.insertPasarelaSuscripcion])

/-- `procesarPagoCompleto(datos, auditContext)`: the 20-step saga.
Failures of paso 1, the client phase, paso 8, 9, 11 and 12 throw and are
handled by the catch; `registrarTransaccion` and every phase-5 helper
have their results unchecked (or merely logged), exactly as in the
source. -/
def procesarPagoCompleto (env : SagaEnv) : SagaOutcome × List Ev :=
  if !env.sesionDbOk then
    (.fail ("Paso 1 falló: " ++ env.sesionDbError) none, [])
  else
    let sid := env.idsesionpas
    let ev1 : List Ev :=
      [.insertSesion sid, .histAppend "INICIO" "Inicio del proceso de pago"]
    let cliente := sagaProcesarCliente env
    if !cliente.1.1 then
      sagaAbort sid ("Fase Cliente falló: " ++ cliente.1.2) (ev1 ++ cliente.2)
    else
      sagaDesdeTarjeta env sid (ev1 ++ cliente.2 ++ [.updateSesionUsu])

/-- Step number of the 20-step flow an event belongs to; `none` for
session-activity touches and for the failure-handler events
(`PAGO_FALLIDO`, close-as-Failed), which are not steps of the flow. -/
def stepOf : Ev → Option Nat
  | .insertSesion _ => some 1
  | .histAppend a _ =>
      if a = "INICIO" then some 2
      else if a = "TOKEN_CREADO" then some 10
      else if a = "PAGO_EXITOSO" then some 15
      else none
  | .updateSesionUsu => none
  | .insertUsuario => some 5
  | .openpayCall op _ =>
      if op = "CREATE_CUSTOMER" then some 6
      else if op = "ASSOCIATE_CARD" then some 8
      else if op = "CREATE_SUBSCRIPTION" then some 11
      else none
  | .insertPasarelaCliente => some 7
  | .insertPasarelaTarjeta => some 9
  | .insertPasarelaSuscripcion => some 12
  | .insertPasarelaTransaccion => some 13
  | .cajaVirtualUpdate => some 14
  | .cerrarSesionEv e => if e = "C" then some 16 else none
  | .insertVenta => some 17
  | .insertVentaDetalle => some 18
  | .insertMembresia => some 19
  | .updateTransVenta => some 20

/-- The step numbers of the operations a trace executed. -/
def stepsOfT (t : List Ev) : List Nat := t.filterMap stepOf

/-- The step of the client phase at which a run fails, when it does. -/
def clienteFailStep (env : SagaEnv) : Option Nat :=
  if env.usuarioExiste then
    if env.clientePasarelaExiste then none
    else if env.crearClienteOk then
      (if env.registrarClienteOk then none else some 7)
    else some 6
  else
    if env.crearUsuarioOk then
      if env.crearClienteOk then
        (if env.registrarClienteOk then none else some 7)
      else some 6
    else some 5

/-- The step of pasos 8-12 at which a run fails, when any does. -/
def tarjetaFailStep (env : SagaEnv) : Option Nat :=
  if !env.asociarTarjetaOk then some 8
  else if !env.guardarTarjetaOk then some 9
  else if !env.crearSuscripcionOk then some 11
  else if !env.guardarSuscripcionOk then some 12
  else none

/-- The first step whose operation reports failure in a run, when any
does; the steps beyond 12 cannot make the saga throw. -/
def failStep (env : SagaEnv) : Option Nat :=
  if !env.sesionDbOk then some 1
  else
    match clienteFailStep env with
    | some s => some s
    | none => tarjetaFailStep env

/-- Case enumeration of the client phase: its result is one of three
success shapes or five failure shapes, each tied to the step at which
the phase fails. -/
theorem sagaProcesarCliente_cases (env : SagaEnv) :
    (sagaProcesarCliente env = ((true, ""), []) ∧ clienteFailStep env = none)
    ∨ (sagaProcesarCliente env
        = ((true, ""), [.openpayCall "CREATE_CUSTOMER" true, .insertPasarelaCliente])
        ∧ clienteFailStep env = none)
    ∨ (sagaProcesarCliente env
        = ((true, ""),
           [.insertUsuario, .openpayCall "CREATE_CUSTOMER" true, .insertPasarelaCliente])
        ∧ clienteFailStep env = none)
    ∨ (∃ e, sagaProcesarCliente env = ((false, e), [])
        ∧ clienteFailStep env = some 5)
    ∨ (∃ e, sagaProcesarCliente env = ((false, e), [.openpayCall "CREATE_CUSTOMER" false])
        ∧ clienteFailStep env = some 6)
    ∨ (∃ e, sagaProcesarCliente env
        = ((false, e), [.insertUsuario, .openpayCall "CREATE_CUSTOMER" false])
        ∧ clienteFailStep env = some 6)
    ∨ (∃ e, sagaProcesarCliente env = ((false, e), [.openpayCall "CREATE_CUSTOMER" true])
        ∧ clienteFailStep env = some 7)
    ∨ (∃ e, sagaProcesarCliente env
        = ((false, e), [.insertUsuario, .openpayCall "CREATE_CUSTOMER" true])
        ∧ clienteFailStep env = some 7) := by
  unfold sagaProcesarCliente clienteFailStep
  split_ifs
  · exact Or.inl ⟨rfl, rfl⟩
  · exact Or.inr (Or.inl ⟨rfl, rfl⟩)
  · exact Or.inr (Or.inr (Or.inr (Or.inr (Or.inr (Or.inr (Or.inl ⟨_, rfl, rfl⟩))))))
  · exact Or.inr (Or.inr (Or.inr (Or.inr (Or.inl ⟨_, rfl, rfl⟩))))
  · exact Or.inr (Or.inr (Or.inl ⟨rfl, rfl⟩))
  · exact Or.inr (Or.inr (Or.inr (Or.inr (Or.inr (Or.inr (Or.inr ⟨_, rfl, rfl⟩))))))
  · exact Or.inr (Or.inr (Or.inr (Or.inr (Or.inr (Or.inl ⟨_, rfl, rfl⟩)))))
  · exact Or.inr (Or.inr (Or.inr (Or.inl ⟨_, rfl, rfl⟩)))

theorem mem_stepsOfT {e : Ev} {t : List Ev} {n : Nat} (he : e ∈ t)
    (hn : stepOf e = some n) : n ∈ stepsOfT t :=
  List.mem_filterMap.mpr ⟨e, he, hn⟩

theorem notMem_of_stepsOfT_ub {t : List Ev} {k : Nat}
    (hub : ∀ s ∈ stepsOfT t, s ≤ k) {e : Ev} {n : Nat}
    (hn : stepOf e = some n) (hk : k < n) : e ∉ t :=
  fun he => absurd (hub n (mem_stepsOfT he hn)) (by omega)

theorem sorted_lt_append {l₁ l₂ : List Nat} (h₁ : List.Sorted (· < ·) l₁)
    (h₂ : List.Sorted (· < ·) l₂) (hx : ∀ a ∈ l₁, ∀ b ∈ l₂, a < b) :
    List.Sorted (· < ·) (l₁ ++ l₂) :=
  List.pairwise_append.mpr ⟨h₁, h₂, hx⟩

theorem stepsOfT_append (a b : List Ev) :
    stepsOfT (a ++ b) = stepsOfT a ++ stepsOfT b :=
  List.filterMap_append a b stepOf

theorem sagaAbort_spec (sid : Nat) (msg : String) (evs : List Ev) :
    (sagaAbort sid msg evs).1 = .fail msg (some sid)
    ∧ (sagaAbort sid msg evs).2
        = evs ++ [.histAppend "PAGO_FALLIDO" msg, .cerrarSesionEv "F"]
    ∧ stepsOfT (sagaAbort sid msg evs).2 = stepsOfT evs := by
  refine ⟨rfl, rfl, ?_⟩
  unfold sagaAbort
  rw [stepsOfT_append]
  simp [stepsOfT, stepOf]

theorem sagaRegistrarTransaccion_spec (env : SagaEnv) :
    List.Sorted (· < ·) (stepsOfT (sagaRegistrarTransaccion env).2)
    ∧ (∀ s ∈ stepsOfT (sagaRegistrarTransaccion env).2, 13 ≤ s ∧ s ≤ 14)
    ∧ (env.registrarTransaccionOk = true →
        Ev.insertPasarelaTransaccion ∈ (sagaRegistrarTransaccion env).2) := by
  unfold sagaRegistrarTransaccion
  split_ifs <;> refine ⟨?_, ?_, ?_⟩ <;> simp_all +decide [stepsOfT, stepOf]

theorem sagaFase5_spec (env : SagaEnv) :
    List.Sorted (· < ·) (stepsOfT (sagaFase5 env))
    ∧ (∀ s ∈ stepsOfT (sagaFase5 env), 17 ≤ s ∧ s ≤ 20) := by
  unfold sagaFase5
  split_ifs <;> refine ⟨?_, ?_⟩ <;> simp_all +decide [stepsOfT, stepOf]

theorem sagaDesdeTransaccion_spec (env : SagaEnv) (sid : Nat) (evs : List Ev)
    (hsort : List.Sorted (· < ·) (stepsOfT evs))
    (hub : ∀ s ∈ stepsOfT evs, s ≤ 12) :
    (sagaDesdeTransaccion env sid evs).1 = .ok sid
    ∧ List.Sorted (· < ·) (stepsOfT (sagaDesdeTransaccion env sid evs).2)
    ∧ (∀ s ∈ stepsOfT (sagaDesdeTransaccion env sid evs).2, s ≤ 20)
    ∧ (∃ l₁ l₂, (sagaDesdeTransaccion env sid evs).2
          = l₁ ++ Ev.cerrarSesionEv "C" :: l₂
        ∧ (∀ s ∈ stepsOfT l₁, s ≤ 15)
        ∧ (env.registrarTransaccionOk = true → Ev.insertPasarelaTransaccion ∈ l₁)) := by
  obtain ⟨ht1, ht2, ht3⟩ := sagaRegistrarTransaccion_spec env
  obtain ⟨hf1, hf2⟩ := sagaFase5_spec env
  have hsteps15 : stepsOfT
      [Ev.histAppend "PAGO_EXITOSO" ("Suscripción creada: " ++ env.idsuscext),
       Ev.cerrarSesionEv "C"] = [15, 16] := by
    simp [stepsOfT, stepOf]
  refine ⟨rfl, ?_, ?_, ?_⟩
  · show List.Sorted (· < ·) (stepsOfT
      ((evs ++ (sagaRegistrarTransaccion env).2
        ++ [Ev.histAppend "PAGO_EXITOSO" ("Suscripción creada: " ++ env.idsuscext),
            Ev.cerrarSesionEv "C"]) ++ sagaFase5 env))
    rw [stepsOfT_append, stepsOfT_append, stepsOfT_append, hsteps15]
    refine sorted_lt_append (sorted_lt_append (sorted_lt_append hsort ht1 ?_) ?_ ?_) hf1 ?_
    · intro a ha b hb
      have := hub a ha
      have := (ht2 b hb).1
      omega
    · decide
    · intro a ha b hb
      rw [List.mem_append] at ha
      rcases ha with ha | ha
      · have := hub a ha
        simp at hb
        omega
      · have := (ht2 a ha).2
        simp at hb
        omega
    · intro a ha b hb
      have hb17 := (hf2 b hb).1
      rw [List.mem_append, List.mem_append] at ha
      rcases ha with (ha | ha) | ha
      · have := hub a ha
        omega
      · have := (ht2 a ha).2
        omega
      · simp at ha
        omega
  · intro s hs
    rw [show (sagaDesdeTransaccion env sid evs).2
        = (evs ++ (sagaRegistrarTransaccion env).2
          ++ [Ev.histAppend "PAGO_EXITOSO" ("Suscripción creada: " ++ env.idsuscext),
              Ev.cerrarSesionEv "C"]) ++ sagaFase5 env from rfl,
      stepsOfT_append, stepsOfT_append, stepsOfT_append, hsteps15] at hs
    rw [List.mem_append, List.mem_append, List.mem_append] at hs
    rcases hs with ((hs | hs) | hs) | hs
    · have := hub s hs
      omega
    · have := (ht2 s hs).2
      omega
    · simp at hs
      omega
    · exact (hf2 s hs).2
  · refine ⟨evs ++ (sagaRegistrarTransaccion env).2
      ++ [Ev.histAppend "PAGO_EXITOSO" ("Suscripción creada: " ++ env.idsuscext)],
      sagaFase5 env, ?_, ?_, ?_⟩
    · show (evs ++ (sagaRegistrarTransaccion env).2
          ++ [Ev.histAppend "PAGO_EXITOSO" ("Suscripción creada: " ++ env.idsuscext),
              Ev.cerrarSesionEv "C"]) ++ sagaFase5 env = _
      simp [List.append_assoc]
    · intro s hs
      rw [stepsOfT_append, stepsOfT_append] at hs
      rw [List.mem_append, List.mem_append] at hs
      rcases hs with (hs | hs) | hs
      · have := hub s hs
        omega
      · have := (ht2 s hs).2
        omega
      · simp [stepsOfT, stepOf] at hs
        omega
    · intro hrt
      rw [List.mem_append, List.mem_append]
      exact Or.inl (Or.inr (ht3 hrt))

theorem sagaDesdeTarjeta_spec (env : SagaEnv) (sid : Nat) (evs : List Ev)
    (hsort : List.Sorted (· < ·) (stepsOfT evs))
    (hub : ∀ s ∈ stepsOfT evs, s ≤ 7) :
    List.Sorted (· < ·) (stepsOfT (sagaDesdeTarjeta env sid evs).2)
    ∧ (∀ s ∈ stepsOfT (sagaDesdeTarjeta env sid evs).2,
        s ≤ (tarjetaFailStep env).getD 20)
    ∧ (tarjetaFailStep env = none ↔ (sagaDesdeTarjeta env sid evs).1 = .ok sid)
    ∧ (∀ msg sid2, (sagaDesdeTarjeta env sid evs).1 = .fail msg sid2 →
        sid2 = some sid
        ∧ Ev.histAppend "PAGO_FALLIDO" msg ∈ (sagaDesdeTarjeta env sid evs).2
        ∧ Ev.cerrarSesionEv "F" ∈ (sagaDesdeTarjeta env sid evs).2)
    ∧ (∀ sid2, (sagaDesdeTarjeta env sid evs).1 = .ok sid2 →
        ∃ l₁ l₂, (sagaDesdeTarjeta env sid evs).2 = l₁ ++ Ev.cerrarSesionEv "C" :: l₂
          ∧ (∀ s ∈ stepsOfT l₁, s ≤ 15)
          ∧ (env.registrarTransaccionOk = true →
              Ev.insertPasarelaTransaccion ∈ l₁)) := by
  have hone : ∀ (pre : List Ev) (k : Nat) (msg : String),
      List.Sorted (· < ·) (stepsOfT pre) → (∀ s ∈ stepsOfT pre, s ≤ k) →
      List.Sorted (· < ·) (stepsOfT (sagaAbort sid msg pre).2)
      ∧ (∀ s ∈ stepsOfT (sagaAbort sid msg pre).2, s ≤ k)
      ∧ (∀ m2 sid2, (sagaAbort sid msg pre).1 = .fail m2 sid2 →
          sid2 = some sid
          ∧ Ev.histAppend "PAGO_FALLIDO" m2 ∈ (sagaAbort sid msg pre).2
          ∧ Ev.cerrarSesionEv "F" ∈ (sagaAbort sid msg pre).2)
      ∧ (∀ sid2, (sagaAbort sid msg pre).1 = SagaOutcome.ok sid2 → False) := by
    intro pre k msg hs hu
    obtain ⟨h1, h2, h3⟩ := sagaAbort_spec sid msg pre
    refine ⟨by rw [h3]; exact hs, by rw [h3]; exact hu, ?_, ?_⟩
    · intro m2 sid2 hfl
      rw [h1, SagaOutcome.fail.injEq] at hfl
      obtain ⟨hm, hsid⟩ := hfl
      subst hm
      exact ⟨hsid.symm, by rw [h2]; simp, by rw [h2]; simp⟩
    · intro sid2 hok
      rw [h1] at hok
      exact SagaOutcome.noConfusion hok
  have hext : ∀ (tail : List Ev) (ts : List Nat) (k : Nat), stepsOfT tail = ts →
      List.Sorted (· < ·) ts → (∀ b ∈ ts, 7 < b ∧ b ≤ k) → 7 ≤ k →
      List.Sorted (· < ·) (stepsOfT (evs ++ tail))
      ∧ (∀ s ∈ stepsOfT (evs ++ tail), s ≤ k) := by
    intro tail ts k hts hsts hbs hk
    rw [stepsOfT_append, hts]
    constructor
    · refine sorted_lt_append hsort hsts ?_
      intro a ha b hb
      have h1 := hub a ha
      have h2 := (hbs b hb).1
      omega
    · intro s hs
      rw [List.mem_append] at hs
      rcases hs with hs | hs
      · have := hub s hs
        omega
      · exact (hbs s hs).2
  unfold sagaDesdeTarjeta tarjetaFailStep
  split_ifs with h8 h9 h11 h12
  · obtain ⟨hs1, hu1⟩ := hext [Ev.openpayCall "ASSOCIATE_CARD" false] [8] 8
      (by simp [stepsOfT, stepOf]) (by simp) (by decide) (by omega)
    obtain ⟨ha1, ha2, ha3, ha4⟩ := hone _ 8 _ hs1 hu1
    exact ⟨ha1, by simpa using ha2,
      ⟨fun h => h.elim, fun h => (ha4 sid h).elim⟩,
      ha3, fun sid2 hok => (ha4 sid2 hok).elim⟩
  · obtain ⟨hs1, hu1⟩ := hext [Ev.openpayCall "ASSOCIATE_CARD" true] [8] 9
      (by simp [stepsOfT, stepOf]) (by simp) (by decide) (by omega)
    obtain ⟨ha1, ha2, ha3, ha4⟩ := hone _ 9 _ hs1 hu1
    exact ⟨ha1, by simpa using ha2,
      ⟨fun h => h.elim, fun h => (ha4 sid h).elim⟩,
      ha3, fun sid2 hok => (ha4 sid2 hok).elim⟩
  · dsimp only
    have hre : ((evs ++ [Ev.openpayCall "ASSOCIATE_CARD" true])
          ++ [Ev.insertPasarelaTarjeta,
              Ev.histAppend "TOKEN_CREADO"
                ("Tarjeta asociada: ****" ++ env.tarjetaUltimos4 ++ " " ++ env.tarjetaMarca)])
          ++ [Ev.openpayCall "CREATE_SUBSCRIPTION" false]
        = evs ++ [Ev.openpayCall "ASSOCIATE_CARD" true, Ev.insertPasarelaTarjeta,
            Ev.histAppend "TOKEN_CREADO"
              ("Tarjeta asociada: ****" ++ env.tarjetaUltimos4 ++ " " ++ env.tarjetaMarca),
            Ev.openpayCall "CREATE_SUBSCRIPTION" false] := by
      simp
    rw [hre]
    obtain ⟨hs1, hu1⟩ := hext
      [Ev.openpayCall "ASSOCIATE_CARD" true, Ev.insertPasarelaTarjeta,
        Ev.histAppend "TOKEN_CREADO"
          ("Tarjeta asociada: ****" ++ env.tarjetaUltimos4 ++ " " ++ env.tarjetaMarca),
        Ev.openpayCall "CREATE_SUBSCRIPTION" false]
      [8, 9, 10, 11] 11
      (by simp [stepsOfT, stepOf]) (by decide) (by decide) (by omega)
    obtain ⟨ha1, ha2, ha3, ha4⟩ := hone _ 11 _ hs1 hu1
    exact ⟨ha1, by simpa using ha2,
      ⟨fun h => h.elim, fun h => (ha4 sid h).elim⟩,
      ha3, fun sid2 hok => (ha4 sid2 hok).elim⟩
  · dsimp only
    have hre : ((evs ++ [Ev.openpayCall "ASSOCIATE_CARD" true])
          ++ [Ev.insertPasarelaTarjeta,
              Ev.histAppend "TOKEN_CREADO"
                ("Tarjeta asociada: ****" ++ env.tarjetaUltimos4 ++ " " ++ env.tarjetaMarca)])
          ++ [Ev.openpayCall "CREATE_SUBSCRIPTION" true]
        = evs ++ [Ev.openpayCall "ASSOCIATE_CARD" true, Ev.insertPasarelaTarjeta,
            Ev.histAppend "TOKEN_CREADO"
              ("Tarjeta asociada: ****" ++ env.tarjetaUltimos4 ++ " " ++ env.tarjetaMarca),
            Ev.openpayCall "CREATE_SUBSCRIPTION" true] := by
      simp
    rw [hre]
    obtain ⟨hs1, hu1⟩ := hext
      [Ev.openpayCall "ASSOCIATE_CARD" true, Ev.insertPasarelaTarjeta,
        Ev.histAppend "TOKEN_CREADO"
          ("Tarjeta asociada: ****" ++ env.tarjetaUltimos4 ++ " " ++ env.tarjetaMarca),
        Ev.openpayCall "CREATE_SUBSCRIPTION" true]
      [8, 9, 10, 11] 12
      (by simp [stepsOfT, stepOf]) (by decide) (by decide) (by omega)
    obtain ⟨ha1, ha2, ha3, ha4⟩ := hone _ 12 _ hs1 hu1
    exact ⟨ha1, by simpa using ha2,
      ⟨fun h => h.elim, fun h => (ha4 sid h).elim⟩,
      ha3, fun sid2 hok => (ha4 sid2 hok).elim⟩
  · dsimp only
    have hre : (((evs ++ [Ev.openpayCall "ASSOCIATE_CARD" true])
          ++ [Ev.insertPasarelaTarjeta,
              Ev.histAppend "TOKEN_CREADO"
                ("Tarjeta asociada: ****" ++ env.tarjetaUltimos4 ++ " " ++ env.tarjetaMarca)])
          ++ [Ev.openpayCall "CREATE_SUBSCRIPTION" true])
          ++ [Ev.insertPasarelaSuscripcion]
        = evs ++ [Ev.openpayCall "ASSOCIATE_CARD" true, Ev.insertPasarelaTarjeta,
            Ev.histAppend "TOKEN_CREADO"
              ("Tarjeta asociada: ****" ++ env.tarjetaUltimos4 ++ " " ++ env.tarjetaMarca),
            Ev.openpayCall "CREATE_SUBSCRIPTION" true, Ev.insertPasarelaSuscripcion] := by
      simp
    rw [hre]
    obtain ⟨hs1, hu1⟩ := hext
      [Ev.openpayCall "ASSOCIATE_CARD" true, Ev.insertPasarelaTarjeta,
        Ev.histAppend "TOKEN_CREADO"
          ("Tarjeta asociada: ****" ++ env.tarjetaUltimos4 ++ " " ++ env.tarjetaMarca),
        Ev.openpayCall "CREATE_SUBSCRIPTION" true, Ev.insertPasarelaSuscripcion]
      [8, 9, 10, 11, 12] 12
      (by simp [stepsOfT, stepOf]) (by decide) (by decide) (by omega)
    obtain ⟨hd1, hd2, hd3, hd4⟩ := sagaDesdeTransaccion_spec env sid _ hs1 hu1
    refine ⟨hd2, ?_, ?_, ?_, ?_⟩
    · intro s hs
      have := hd3 s hs
      simpa using this
    · exact ⟨fun _ => hd1, fun _ => rfl⟩
    · intro msg sid2 hfl
      rw [hd1] at hfl
      exact SagaOutcome.noConfusion hfl
    · intro sid2 _
      exact hd4

theorem abort_run_spec (sid : Nat) (msg : String) (pre : List Ev) (k : Nat)
    (hs : List.Sorted (· < ·) (stepsOfT pre)) (hu : ∀ s ∈ stepsOfT pre, s ≤ k) :
    List.Sorted (· < ·) (stepsOfT (sagaAbort sid msg pre).2)
    ∧ (∀ s ∈ stepsOfT (sagaAbort sid msg pre).2, s ≤ k)
    ∧ (∀ m2 sid2, (sagaAbort sid msg pre).1 = SagaOutcome.fail m2 sid2 →
        sid2 = some sid
        ∧ Ev.histAppend "PAGO_FALLIDO" m2 ∈ (sagaAbort sid msg pre).2
        ∧ Ev.cerrarSesionEv "F" ∈ (sagaAbort sid msg pre).2)
    ∧ (∀ sid2, (sagaAbort sid msg pre).1 = SagaOutcome.ok sid2 → False) := by
  obtain ⟨h1, h2, h3⟩ := sagaAbort_spec sid msg pre
  refine ⟨by rw [h3]; exact hs, by rw [h3]; exact hu, ?_, ?_⟩
  · intro m2 sid2 hfl
    rw [h1, SagaOutcome.fail.injEq] at hfl
    obtain ⟨hm, hsid⟩ := hfl
    subst hm
    exact ⟨hsid.symm, by rw [h2]; simp, by rw [h2]; simp⟩
  · intro sid2 hok
    rw [h1] at hok
    exact SagaOutcome.noConfusion hok

theorem saga_run_spec (env : SagaEnv) :
    List.Sorted (· < ·) (stepsOfT (procesarPagoCompleto env).2)
    ∧ (∀ s ∈ stepsOfT (procesarPagoCompleto env).2, s ≤ (failStep env).getD 20)
    ∧ (failStep env = none ↔ (procesarPagoCompleto env).1 = SagaOutcome.ok env.idsesionpas)
    ∧ (env.sesionDbOk = true →
        ∀ msg sid, (procesarPagoCompleto env).1 = SagaOutcome.fail msg sid →
          sid = some env.idsesionpas
          ∧ Ev.histAppend "PAGO_FALLIDO" msg ∈ (procesarPagoCompleto env).2
          ∧ Ev.cerrarSesionEv "F" ∈ (procesarPagoCompleto env).2)
    ∧ (∀ sid, (procesarPagoCompleto env).1 = SagaOutcome.ok sid →
        ∃ l₁ l₂, (procesarPagoCompleto env).2 = l₁ ++ Ev.cerrarSesionEv "C" :: l₂
          ∧ (∀ s ∈ stepsOfT l₁, s ≤ 15)
          ∧ (env.registrarTransaccionOk = true →
              Ev.insertPasarelaTransaccion ∈ l₁)) := by
  by_cases hdb : env.sesionDbOk = true
  case neg =>
    have hP : procesarPagoCompleto env
        = (.fail ("Paso 1 falló: " ++ env.sesionDbError) none, []) := by
      unfold procesarPagoCompleto
      simp [hdb]
    have hFS : failStep env = some 1 := by
      unfold failStep
      simp [hdb]
    rw [hP, hFS]
    refine ⟨by simp [stepsOfT], by simp [stepsOfT], ?_, ?_, ?_⟩
    · exact ⟨fun h => Option.noConfusion h, fun h => SagaOutcome.noConfusion h⟩
    · intro hdb2
      exact absurd hdb2 hdb
    · intro sid hok
      exact SagaOutcome.noConfusion hok
  case pos =>
    rcases sagaProcesarCliente_cases env with
        ⟨hc, hf⟩ | ⟨hc, hf⟩ | ⟨hc, hf⟩ | ⟨e, hc, hf⟩ | ⟨e, hc, hf⟩ |
        ⟨e, hc, hf⟩ | ⟨e, hc, hf⟩ | ⟨e, hc, hf⟩
    · have hP : procesarPagoCompleto env
          = sagaDesdeTarjeta env env.idsesionpas
              [Ev.insertSesion env.idsesionpas,
               Ev.histAppend "INICIO" "Inicio del proceso de pago",
               Ev.updateSesionUsu] := by
        unfold procesarPagoCompleto
        rw [hc]
        simp [hdb]
      have hFS : failStep env = tarjetaFailStep env := by
        unfold failStep
        rw [hf]
        simp [hdb]
      obtain ⟨s1, s2, s3, s4, s5⟩ := sagaDesdeTarjeta_spec env env.idsesionpas
        [Ev.insertSesion env.idsesionpas,
         Ev.histAppend "INICIO" "Inicio del proceso de pago",
         Ev.updateSesionUsu]
        (by simp +decide [stepsOfT, stepOf, List.sorted_cons])
        (by intro s hs2; simp [stepsOfT, stepOf] at hs2; omega)
      rw [hP, hFS]
      exact ⟨s1, s2, s3, fun _ => s4, s5⟩
    · have hP : procesarPagoCompleto env
          = sagaDesdeTarjeta env env.idsesionpas
              [Ev.insertSesion env.idsesionpas,
               Ev.histAppend "INICIO" "Inicio del proceso de pago",
               Ev.openpayCall "CREATE_CUSTOMER" true, Ev.insertPasarelaCliente,
               Ev.updateSesionUsu] := by
        unfold procesarPagoCompleto
        rw [hc]
        simp [hdb]
      have hFS : failStep env = tarjetaFailStep env := by
        unfold failStep
        rw [hf]
        simp [hdb]
      obtain ⟨s1, s2, s3, s4, s5⟩ := sagaDesdeTarjeta_spec env env.idsesionpas
        [Ev.insertSesion env.idsesionpas,
         Ev.histAppend "INICIO" "Inicio del proceso de pago",
         Ev.openpayCall "CREATE_CUSTOMER" true, Ev.insertPasarelaCliente,
         Ev.updateSesionUsu]
        (by simp +decide [stepsOfT, stepOf, List.sorted_cons])
        (by intro s hs2; simp [stepsOfT, stepOf] at hs2; omega)
      rw [hP, hFS]
      exact ⟨s1, s2, s3, fun _ => s4, s5⟩
    · have hP : procesarPagoCompleto env
          = sagaDesdeTarjeta env env.idsesionpas
              [Ev.insertSesion env.idsesionpas,
               Ev.histAppend "INICIO" "Inicio del proceso de pago",
               Ev.insertUsuario, Ev.openpayCall "CREATE_CUSTOMER" true,
               Ev.insertPasarelaCliente, Ev.updateSesionUsu] := by
        unfold procesarPagoCompleto
        rw [hc]
        simp [hdb]
      have hFS : failStep env = tarjetaFailStep env := by
        unfold failStep
        rw [hf]
        simp [hdb]
      obtain ⟨s1, s2, s3, s4, s5⟩ := sagaDesdeTarjeta_spec env env.idsesionpas
        [Ev.insertSesion env.idsesionpas,
         Ev.histAppend "INICIO" "Inicio del proceso de pago",
         Ev.insertUsuario, Ev.openpayCall "CREATE_CUSTOMER" true,
         Ev.insertPasarelaCliente, Ev.updateSesionUsu]
        (by simp +decide [stepsOfT, stepOf, List.sorted_cons])
        (by intro s hs2; simp [stepsOfT, stepOf] at hs2; omega)
      rw [hP, hFS]
      exact ⟨s1, s2, s3, fun _ => s4, s5⟩
    · have hP : procesarPagoCompleto env
          = sagaAbort env.idsesionpas ("Fase Cliente falló: " ++ e)
              [Ev.insertSesion env.idsesionpas,
               Ev.histAppend "INICIO" "Inicio del proceso de pago"] := by
        unfold procesarPagoCompleto
        rw [hc]
        simp [hdb]
      have hFS : failStep env = some 5 := by
        unfold failStep
        rw [hf]
        simp [hdb]
      obtain ⟨ha1, ha2, ha3, ha4⟩ := abort_run_spec env.idsesionpas
        ("Fase Cliente falló: " ++ e)
        [Ev.insertSesion env.idsesionpas,
         Ev.histAppend "INICIO" "Inicio del proceso de pago"] 5
        (by simp +decide [stepsOfT, stepOf, List.sorted_cons])
        (by intro s hs2; simp [stepsOfT, stepOf] at hs2; omega)
      rw [hP, hFS]
      exact ⟨ha1, by simpa using ha2,
        ⟨fun h => Option.noConfusion h, fun h => (ha4 _ h).elim⟩,
        fun _ => ha3, fun sid hok => (ha4 sid hok).elim⟩
    · have hP : procesarPagoCompleto env
          = sagaAbort env.idsesionpas ("Fase Cliente falló: " ++ e)
              [Ev.insertSesion env.idsesionpas,
               Ev.histAppend "INICIO" "Inicio del proceso de pago",
               Ev.openpayCall "CREATE_CUSTOMER" false] := by
        unfold procesarPagoCompleto
        rw [hc]
        simp [hdb]
      have hFS : failStep env = some 6 := by
        unfold failStep
        rw [hf]
        simp [hdb]
      obtain ⟨ha1, ha2, ha3, ha4⟩ := abort_run_spec env.idsesionpas
        ("Fase Cliente falló: " ++ e)
        [Ev.insertSesion env.idsesionpas,
         Ev.histAppend "INICIO" "Inicio del proceso de pago",
         Ev.openpayCall "CREATE_CUSTOMER" false] 6
        (by simp +decide [stepsOfT, stepOf, List.sorted_cons])
        (by intro s hs2; simp [stepsOfT, stepOf] at hs2; omega)
      rw [hP, hFS]
      exact ⟨ha1, by simpa using ha2,
        ⟨fun h => Option.noConfusion h, fun h => (ha4 _ h).elim⟩,
        fun _ => ha3, fun sid hok => (ha4 sid hok).elim⟩
    · have hP : procesarPagoCompleto env
          = sagaAbort env.idsesionpas ("Fase Cliente falló: " ++ e)
              [Ev.insertSesion env.idsesionpas,
               Ev.histAppend "INICIO" "Inicio del proceso de pago",
               Ev.insertUsuario, Ev.openpayCall "CREATE_CUSTOMER" false] := by
        unfold procesarPagoCompleto
        rw [hc]
        simp [hdb]
      have hFS : failStep env = some 6 := by
        unfold failStep
        rw [hf]
        simp [hdb]
      obtain ⟨ha1, ha2, ha3, ha4⟩ := abort_run_spec env.idsesionpas
        ("Fase Cliente falló: " ++ e)
        [Ev.insertSesion env.idsesionpas,
         Ev.histAppend "INICIO" "Inicio del proceso de pago",
         Ev.insertUsuario, Ev.openpayCall "CREATE_CUSTOMER" false] 6
        (by simp +decide [stepsOfT, stepOf, List.sorted_cons])
        (by intro s hs2; simp [stepsOfT, stepOf] at hs2; omega)
      rw [hP, hFS]
      exact ⟨ha1, by simpa using ha2,
        ⟨fun h => Option.noConfusion h, fun h => (ha4 _ h).elim⟩,
        fun _ => ha3, fun sid hok => (ha4 sid hok).elim⟩
    · have hP : procesarPagoCompleto env
          = sagaAbort env.idsesionpas ("Fase Cliente falló: " ++ e)
              [Ev.insertSesion env.idsesionpas,
               Ev.histAppend "INICIO" "Inicio del proceso de pago",
               Ev.openpayCall "CREATE_CUSTOMER" true] := by
        unfold procesarPagoCompleto
        rw [hc]
        simp [hdb]
      have hFS : failStep env = some 7 := by
        unfold failStep
        rw [hf]
        simp [hdb]
      obtain ⟨ha1, ha2, ha3, ha4⟩ := abort_run_spec env.idsesionpas
        ("Fase Cliente falló: " ++ e)
        [Ev.insertSesion env.idsesionpas,
         Ev.histAppend "INICIO" "Inicio del proceso de pago",
         Ev.openpayCall "CREATE_CUSTOMER" true] 7
        (by simp +decide [stepsOfT, stepOf, List.sorted_cons])
        (by intro s hs2; simp [stepsOfT, stepOf] at hs2; omega)
      rw [hP, hFS]
      exact ⟨ha1, by simpa using ha2,
        ⟨fun h => Option.noConfusion h, fun h => (ha4 _ h).elim⟩,
        fun _ => ha3, fun sid hok => (ha4 sid hok).elim⟩
    · have hP : procesarPagoCompleto env
          = sagaAbort env.idsesionpas ("Fase Cliente falló: " ++ e)
              [Ev.insertSesion env.idsesionpas,
               Ev.histAppend "INICIO" "Inicio del proceso de pago",
               Ev.insertUsuario, Ev.openpayCall "CREATE_CUSTOMER" true] := by
        unfold procesarPagoCompleto
        rw [hc]
        simp [hdb]
      have hFS : failStep env = some 7 := by
        unfold failStep
        rw [hf]
        simp [hdb]
      obtain ⟨ha1, ha2, ha3, ha4⟩ := abort_run_spec env.idsesionpas
        ("Fase Cliente falló: " ++ e)
        [Ev.insertSesion env.idsesionpas,
         Ev.histAppend "INICIO" "Inicio del proceso de pago",
         Ev.insertUsuario, Ev.openpayCall "CREATE_CUSTOMER" true] 7
        (by simp +decide [stepsOfT, stepOf, List.sorted_cons])
        (by intro s hs2; simp [stepsOfT, stepOf] at hs2; omega)
      rw [hP, hFS]
      exact ⟨ha1, by simpa using ha2,
        ⟨fun h => Option.noConfusion h, fun h => (ha4 _ h).elim⟩,
        fun _ => ha3, fun sid hok => (ha4 sid hok).elim⟩



theorem sagaDesdeTarjeta_ok_sid (env : SagaEnv) (sid : Nat) (evs : List Ev) :
    ∀ sid2, (sagaDesdeTarjeta env sid evs).1 = SagaOutcome.ok sid2 → sid2 = sid := by
  unfold sagaDesdeTarjeta
  split_ifs with h8 h9 h11 h12
  · intro sid2 h
    first
      | exact h.elim
      | simp [sagaAbort] at h
  · intro sid2 h
    first
      | exact h.elim
      | simp [sagaAbort] at h
  · intro sid2 h
    first
      | exact h.elim
      | simp [sagaAbort] at h
  · intro sid2 h
    first
      | exact h.elim
      | simp [sagaAbort] at h
  · intro sid2 h
    simp only [sagaDesdeTransaccion, SagaOutcome.ok.injEq] at h
    omega

theorem procesarPago_ok_sid (env : SagaEnv) :
    ∀ sid2, (procesarPagoCompleto env).1 = SagaOutcome.ok sid2 →
      sid2 = env.idsesionpas := by
  intro sid2 h
  unfold procesarPagoCompleto at h
  by_cases hdb : env.sesionDbOk = true
  · simp only [hdb, Bool.not_true, Bool.false_eq_true, if_false] at h
    split at h
    · exact absurd h (by simp [sagaAbort])
    · exact sagaDesdeTarjeta_ok_sid env env.idsesionpas _ sid2 h
  · have hdb2 : env.sesionDbOk = false := by
      revert hdb
      cases env.sesionDbOk <;> simp
    rw [hdb2] at h
    simp only [Bool.not_false, if_true] at h
    exact SagaOutcome.noConfusion h

theorem clienteFailStep_ub (env : SagaEnv) :
    ∀ s, clienteFailStep env = some s → s ≤ 7 := by
  unfold clienteFailStep
  split_ifs
  all_goals intro s h
  all_goals
    first
      | exact h.elim
      | exact Option.noConfusion h
      | (injection h with h2; omega)

theorem failStep_card_ub (env : SagaEnv) (hdb : env.sesionDbOk = true)
    (hta : env.asociarTarjetaOk = false) :
    ∀ k, failStep env = some k → k ≤ 9 := by
  intro k hk
  unfold failStep at hk
  rw [hdb] at hk
  simp only [Bool.not_true, Bool.false_eq_true, if_false] at hk
  rcases hc : clienteFailStep env with _ | s
  · rw [hc] at hk
    have ht : tarjetaFailStep env = some 8 := by
      unfold tarjetaFailStep
      rw [hta]
      simp
    rw [ht] at hk
    injection hk with h2
    omega
  · rw [hc] at hk
    injection hk with h2
    have := clienteFailStep_ub env s hc
    omega

/-- A run in which the session row is created, the buyer already has a
`PasarelaCliente` row, and the gateway card-association call (paso 8) is
rejected; everything later would have succeeded. -/
def envCardFail : SagaEnv :=
  ⟨true, "", 42, true, true, true, true, "", true, "", false, "tarjeta rechazada",
   "1111", "visa", true, "", true, "", "sub_42", "active", true, "", true,
   true, true, true⟩

/-- A fully successful run: session created, buyer and `PasarelaCliente`
row already present, every gateway call and every local write succeeds,
and the subscription comes back `active`. -/
def envHappy : SagaEnv :=
  ⟨true, "", 77, true, true, true, true, "", true, "", true, "",
   "4242", "visa", true, "", true, "", "sub_77", "active", true, "", true,
   true, true, true⟩

/-- A run in which the session, the client phase and pasos 8-12 all
succeed, but `registrarTransaccion` (paso 13) reports `success:false`
and the sale-detail insert (paso 18) fails; everything else succeeds. -/
def envTransFail : SagaEnv :=
  ⟨true, "", 55, true, true, true, true, "", true, "", true, "",
   "4242", "visa", true, "", true, "", "sub_55", "active", true, "", false,
   true, false, true⟩

/-- C8 counterexample: a step reporting failure does NOT always abort
the later operations. In this run paso 13 reports `success:false` (no
transaction row is written) and paso 18 fails, yet the saga still runs
paso 15 (`PAGO_EXITOSO`), paso 16 (close as Completed), paso 17 (the
sale), paso 19 (the membership) and paso 20, and returns success: the
results of paso 13 and of the fase-5 helpers are never checked. -/
theorem C8_counterexample :
    envTransFail.registrarTransaccionOk = false
    ∧ envTransFail.crearVentaDetalleOk = false
    ∧ (procesarPagoCompleto envTransFail).1 = SagaOutcome.ok 55
    ∧ Ev.insertPasarelaTransaccion ∉ (procesarPagoCompleto envTransFail).2
    ∧ Ev.insertVentaDetalle ∉ (procesarPagoCompleto envTransFail).2
    ∧ Ev.histAppend "PAGO_EXITOSO" "Suscripción creada: sub_55"
        ∈ (procesarPagoCompleto envTransFail).2
    ∧ Ev.cerrarSesionEv "C" ∈ (procesarPagoCompleto envTransFail).2
    ∧ Ev.insertVenta ∈ (procesarPagoCompleto envTransFail).2
    ∧ Ev.insertMembresia ∈ (procesarPagoCompleto envTransFail).2
    ∧ Ev.updateTransVenta ∈ (procesarPagoCompleto envTransFail).2 := by
  decide

/-- C8 (amended): the saga's phases run strictly in order — the step
numbers of the operations any run executes form a strictly increasing
sequence — and a failure of a CHECKED step (paso 1, the client phase,
pasos 8, 9, 11, 12, i.e. `failStep`) aborts everything later: no
operation of a step after it is executed. When no checked step fails the
run completes successfully even if the unchecked steps (paso 13, fase 5)
reported failure. -/
theorem C8_phase_order_amended (env : SagaEnv) :
    List.Sorted (· < ·) (stepsOfT (procesarPagoCompleto env).2)
    ∧ (∀ k, failStep env = some k →
        ∀ s ∈ stepsOfT (procesarPagoCompleto env).2, s ≤ k)
    ∧ (failStep env = none →
        (procesarPagoCompleto env).1 = SagaOutcome.ok env.idsesionpas) := by
  obtain ⟨h1, h2, h3, -, -⟩ := saga_run_spec env
  refine ⟨h1, fun k hk s hs => ?_, h3.mp⟩
  have hb := h2 s hs
  rw [hk] at hb
  simpa using hb

/-- C8 witness: the card-rejection run executes its operations in strict
step order, its trace does contain a step (paso 8) at the failure bound,
and the paso-13/paso-18 failure run completes. -/
theorem C8_witness :
    List.Sorted (· < ·) (stepsOfT (procesarPagoCompleto envCardFail).2)
    ∧ 8 ≤ 8
    ∧ (procesarPagoCompleto envTransFail).1 = SagaOutcome.ok 55 :=
  ⟨(C8_phase_order_amended envCardFail).1,
   (C8_phase_order_amended envCardFail).2.1 8 (by decide) 8 (by decide),
   (C8_phase_order_amended envTransFail).2.2 (by decide)⟩

/-- C1: whenever the session row was created (paso 1 succeeded) and some
later checked step fails, the saga returns the structured failure
carrying the session id, appends the `PAGO_FALLIDO` history entry with
the error detail, and closes the session as Failed; and when the failed
step is the card association, no subscription, transaction, sale or
membership row is written. -/
theorem C1_saga_failure_handling (env : SagaEnv) (k : Nat)
    (hdb : env.sesionDbOk = true) (hk : failStep env = some k) (hk2 : 2 ≤ k) :
    (∃ msg,
        (procesarPagoCompleto env).1 = SagaOutcome.fail msg (some env.idsesionpas)
        ∧ Ev.histAppend "PAGO_FALLIDO" msg ∈ (procesarPagoCompleto env).2
        ∧ Ev.cerrarSesionEv "F" ∈ (procesarPagoCompleto env).2)
    ∧ (env.asociarTarjetaOk = false →
        Ev.insertPasarelaSuscripcion ∉ (procesarPagoCompleto env).2
        ∧ Ev.insertPasarelaTransaccion ∉ (procesarPagoCompleto env).2
        ∧ Ev.insertVenta ∉ (procesarPagoCompleto env).2
        ∧ Ev.insertMembresia ∉ (procesarPagoCompleto env).2) := by
  obtain ⟨h1, h2, h3, h4, h5⟩ := saga_run_spec env
  constructor
  · rcases hres : (procesarPagoCompleto env).1 with sid2 | ⟨msg, sid2⟩
    · exfalso
      have he := procesarPago_ok_sid env sid2 hres
      rw [he] at hres
      have hn := h3.mpr hres
      rw [hk] at hn
      exact Option.noConfusion hn
    · obtain ⟨hsid, hm1, hm2⟩ := h4 hdb msg sid2 hres
      refine ⟨msg, ?_, hm1, hm2⟩
      rw [hsid]
  · intro hta
    have h9 := failStep_card_ub env hdb hta k hk
    have hub : ∀ s ∈ stepsOfT (procesarPagoCompleto env).2, s ≤ 9 := by
      intro s hs
      have hb := h2 s hs
      rw [hk] at hb
      simp only [Option.getD_some] at hb
      omega
    exact
      ⟨notMem_of_stepsOfT_ub hub
          (show stepOf Ev.insertPasarelaSuscripcion = some 12 from rfl) (by omega),
        notMem_of_stepsOfT_ub hub
          (show stepOf Ev.insertPasarelaTransaccion = some 13 from rfl) (by omega),
        notMem_of_stepsOfT_ub hub
          (show stepOf Ev.insertVenta = some 17 from rfl) (by omega),
        notMem_of_stepsOfT_ub hub
          (show stepOf Ev.insertMembresia = some 19 from rfl) (by omega)⟩

/-- C1 witness: in the card-rejection run no sale row is written and the
session is closed as Failed. -/
theorem C1_witness :
    Ev.insertVenta ∉ (procesarPagoCompleto envCardFail).2
    ∧ Ev.cerrarSesionEv "F" ∈ (procesarPagoCompleto envCardFail).2 := by
  obtain ⟨⟨msg, hres, hm1, hm2⟩, hcard⟩ :=
    C1_saga_failure_handling envCardFail 8 (by decide) (by decide) (by decide)
  exact ⟨(hcard (by decide)).2.2.1, hm2⟩

/-- C2 counterexample: in the fully successful run the sale and
membership rows ARE written, yet the session is closed as Completed
(paso 16) strictly BEFORE the sale row and the membership row are
inserted — the close is not deferred until after they are durably
recorded, contrary to the claim. -/
theorem C2_counterexample :
    (procesarPagoCompleto envHappy).1 = SagaOutcome.ok 77
    ∧ Ev.insertVenta ∈ (procesarPagoCompleto envHappy).2
    ∧ Ev.insertMembresia ∈ (procesarPagoCompleto envHappy).2
    ∧ List.indexOf (Ev.cerrarSesionEv "C") (procesarPagoCompleto envHappy).2
        < List.indexOf Ev.insertVenta (procesarPagoCompleto envHappy).2
    ∧ List.indexOf (Ev.cerrarSesionEv "C") (procesarPagoCompleto envHappy).2
        < List.indexOf Ev.insertMembresia (procesarPagoCompleto envHappy).2 := by
  decide

/-- C2 (amended): in every run that created the session, a successful
outcome closes the session as Completed only after every step up to the
transaction registration and the `PAGO_EXITOSO` entry (and in particular,
when the transaction insert succeeded, the transaction row itself) is
already in the trace, while the sale and membership rows are written only
after the close; any failure outcome closes the session as Failed. -/
theorem C2_session_close_amended (env : SagaEnv) (hdb : env.sesionDbOk = true) :
    (∀ sid, (procesarPagoCompleto env).1 = SagaOutcome.ok sid →
        ∃ l₁ l₂, (procesarPagoCompleto env).2 = l₁ ++ Ev.cerrarSesionEv "C" :: l₂
          ∧ (env.registrarTransaccionOk = true →
              Ev.insertPasarelaTransaccion ∈ l₁)
          ∧ Ev.insertVenta ∉ l₁ ∧ Ev.insertMembresia ∉ l₁)
    ∧ (∀ msg sid, (procesarPagoCompleto env).1 = SagaOutcome.fail msg sid →
        Ev.cerrarSesionEv "F" ∈ (procesarPagoCompleto env).2) := by
  obtain ⟨h1, h2, h3, h4, h5⟩ := saga_run_spec env
  constructor
  · intro sid hok
    obtain ⟨l₁, l₂, heq, hub, htrans⟩ := h5 sid hok
    refine ⟨l₁, l₂, heq, htrans, ?_, ?_⟩
    · exact notMem_of_stepsOfT_ub hub
        (show stepOf Ev.insertVenta = some 17 from rfl) (by omega)
    · exact notMem_of_stepsOfT_ub hub
        (show stepOf Ev.insertMembresia = some 19 from rfl) (by omega)
  · intro msg sid hfl
    exact (h4 hdb msg sid hfl).2.2

/-- C2 witness: in the card-rejection run the saga fails and the trace
closes the session as Failed. -/
theorem C2_witness :
    Ev.cerrarSesionEv "F" ∈ (procesarPagoCompleto envCardFail).2 :=
  (C2_session_close_amended envCardFail (by decide)).2
    "Paso 8 falló: tarjeta rechazada" (some 42) (by decide)
